import Mathlib

/-!
# Verification development for the Kubernetes configuration updater

Shallow embedding of `pkg/configupdater` (`definitions.go`, `kubeagentupdater.go`).

* Go strings are modelled by Lean strings; the two library functions used by
  `GetAPIURLForConfigCheck` (`strings.Split` with the separator ".", and
  `strings.TrimSuffix`) are modelled on character lists.  The separators "." and "/"
  are single bytes that occur in no multi-byte UTF-8 sequence, so splitting and
  trimming by character agrees with Go's byte-wise functions.
* A Go `map[string]T` is an optional association list: `none` is the nil map,
  which can be read (length 0, every lookup misses) but not assigned to.
* The backend (HTTP), the JSON and YAML codecs, the clock and the cluster API
  (`Clientset`) are the environment `Env`: every call is answered by a function of
  the call's arguments and of the history of calls made so far, so a theorem
  quantified over `Env` holds for every backend and every cluster behaviour.
* Every function that talks to the environment maps the trace of calls made so far
  to its result and the extended trace.  A result is `ok`, an `error` value, or a
  run-time panic.
-/

namespace ConfigUpdater

/-! ## Go values -/

/-- Go `error` value, identified by its message. -/
structure GoError where
  msg : String
  deriving DecidableEq, Repr

/-- Outcome of a Go call: a value, a returned error, or a run-time panic. -/
inductive Result (α : Type) where
  | ok (a : α)
  | error (e : GoError)
  | panicked (reason : String)
  deriving DecidableEq, Repr

/-- True exactly on `Result.ok`. -/
def Result.isOk {α : Type} : Result α → Bool
  | .ok _ => true
  | _ => false

/-- True exactly on `Result.error`: the call returned a non-nil error. -/
def Result.isError {α : Type} : Result α → Bool
  | .error _ => true
  | _ => false

/-- Go `map[string]T`; `none` is the nil map. -/
abbrev GoMap (α : Type) := Option (List (String × α))

/-- Go `len(m)`. -/
def GoMap.len {α : Type} : GoMap α → Nat
  | none => 0
  | some l => l.length

/-- Lookup in an association list: the first entry with the key. -/
def assocGet {α : Type} (k : String) : List (String × α) → Option α
  | [] => none
  | (k1, v1) :: rest => if k1 = k then some v1 else assocGet k rest

/-- Assignment in an association list: replaces the entry of the key, or adds one. -/
def assocSet {α : Type} (k : String) (v : α) : List (String × α) → List (String × α)
  | [] => [(k, v)]
  | (k1, v1) :: rest => if k1 = k then (k, v) :: rest else (k1, v1) :: assocSet k v rest

/-- Go `m[k]` read with the comma-ok form; a nil map has no entries. -/
def GoMap.get {α : Type} (m : GoMap α) (k : String) : Option α :=
  match m with
  | none => none
  | some l => assocGet k l

/-- Go `m[k] = v`; assignment to an entry in a nil map panics. -/
def GoMap.set {α : Type} (m : GoMap α) (k : String) (v : α) : Result (GoMap α) :=
  match m with
  | none => .panicked "assignment to entry in nil map"
  | some l => .ok (some (assocSet k v l))

/-! ## `strings` -/

/-- Go `strings.Split(s, sep)` for a one-character separator, on character lists:
the pieces between the occurrences of the separator, in order. -/
def stringsSplit (sep : Char) : List Char → List (List Char)
  | [] => [[]]
  | c :: cs =>
    if c = sep then [] :: stringsSplit sep cs
    else
      match stringsSplit sep cs with
      | [] => [[c]]
      | p :: ps => (c :: p) :: ps

/-- Go `strings.HasSuffix(s, suffix)`. -/
def stringsHasSuffix (s suffix : List Char) : Bool :=
  suffix.length ≤ s.length && s.drop (s.length - suffix.length) == suffix

/-- Go `strings.TrimSuffix(s, suffix)`: removes one trailing copy of the suffix. -/
def stringsTrimSuffix (s suffix : List Char) : List Char :=
  if stringsHasSuffix s suffix then s.take (s.length - suffix.length) else s

/-- Number of occurrences of a character. -/
def countChar (c : Char) (s : List Char) : Nat := s.count c

/-! ## `definitions.go` -/

/-- The package variable `ErrInvalidTarget`. -/
def ErrInvalidTarget : GoError := ⟨"invalid target"⟩

/-- The function `GetAPIURLForConfigCheck`: the pair of the returned string and the
returned error (`none` is the nil error). -/
def GetAPIURLForConfigCheck (target : String) : String × Option GoError :=
  -- There should at least be two "." in the URL
  let parts := stringsSplit '.' target.data
  if parts.length < 3 then
    ("", some ErrInvalidTarget)
  else
    (String.mk (stringsTrimSuffix target.data ['/']), none)

/-- A decoded JSON value (`interface{}`), kept as its JSON text. -/
structure JSONValue where
  raw : String
  deriving DecidableEq, Repr

/-- The struct `configType`. -/
structure configType where
  Docker : GoMap JSONValue
  NoDocker : GoMap JSONValue
  Deployment : GoMap JSONValue
  DaemonSet : GoMap JSONValue
  deriving DecidableEq, Repr

def apiPathForYAML : String := "api/v1/agent/ingestion-rules"

def apiPathForRestart : String := "api/v1/agent/restart-status"

/-- The struct `apiResponseForYAML`. -/
structure apiResponseForYAML where
  Status : Bool
  Config : configType
  Message : String
  deriving DecidableEq, Repr

/-- The struct `rollout`. -/
structure rollout where
  Deployment : Bool
  Daemonset : Bool
  deriving DecidableEq, Repr

/-- The struct `apiResponseForRestart`. -/
structure apiResponseForRestart where
  Status : Bool
  Restart : Bool
  Rollout : rollout
  Message : String
  deriving DecidableEq, Repr

/-! ## `kubeagentupdater.go`: types -/

def Timestamp : String := "timestamp"

/-- The type `ComponentType` is a Go `int`; only two values are declared. -/
structure ComponentType where
  val : Int
  deriving DecidableEq, Repr

/-- Constant `Deployment` (iota 0). -/
def ComponentType.Deployment : ComponentType := ⟨0⟩

/-- Constant `DaemonSet` (iota 1). -/
def ComponentType.DaemonSet : ComponentType := ⟨1⟩

/-- The method `ComponentType.String`. -/
def ComponentType.String (d : ComponentType) : String :=
  if d = ComponentType.Deployment then "deployment"
  else if d = ComponentType.DaemonSet then "daemonset"
  else "unknown"

/-- A workload kind: one of the two declared constants. -/
def ComponentType.IsKind (d : ComponentType) : Prop :=
  d = ComponentType.DaemonSet ∨ d = ComponentType.Deployment

/-- The fields of `KubeAgentConfig` that the update path reads (`APIKey` and
`APIURLForConfigCheck` come from the embedded `KubeConfig.BaseConfig`, the five
names from the embedded `KubeAgentConfigConfig`). -/
structure KubeAgentConfig where
  APIKey : String
  APIURLForConfigCheck : String
  ClusterName : String
  Version : String
  AgentNamespace : String
  Daemonset : String
  Deployment : String
  DaemonsetConfigMap : String
  DeploymentConfigMap : String
  deriving DecidableEq, Repr

/-! ## The environment -/

/-- A `context.Context`, reduced to whether it has been cancelled. -/
structure Context where
  cancelled : Bool
  deriving DecidableEq, Repr

/-- The argument of `http.Get`: the URL is `url.Parse(rawurl)` joined with the path
elements, with the encoded query parameters (listed in the order of the `Add`s). -/
structure Request where
  rawurl : String
  elems : List String
  params : List (String × String)
  deriving DecidableEq, Repr

/-- An HTTP response: the status code and the body (or the error of reading it). -/
structure HttpResponse where
  StatusCode : Nat
  Body : Except GoError String

/-- A `corev1.ConfigMap`. -/
structure ConfigMap where
  Name : String
  Namespace : String
  ResourceVersion : String
  Data : GoMap String
  deriving DecidableEq, Repr

/-- An `appsv1.DaemonSet` or `appsv1.Deployment`: object metadata and the labels of
the pod template (`Spec.Template.ObjectMeta.Labels`). -/
structure Workload where
  Name : String
  Namespace : String
  ResourceVersion : String
  TemplateLabels : GoMap String
  deriving DecidableEq, Repr

/-- One call made to the outside world (or, for `restartKubeAgentCalled`, the entry
into the per-kind pipeline). -/
inductive Event where
  | httpGet (req : Request)
  | configMapGet (ctx : Context) (ns name : String)
  | configMapUpdate (ctx : Context) (ns : String) (obj : ConfigMap)
  | daemonSetGet (ctx : Context) (ns name : String)
  | daemonSetUpdate (ctx : Context) (ns : String) (obj : Workload)
  | deploymentGet (ctx : Context) (ns name : String)
  | deploymentUpdate (ctx : Context) (ns : String) (obj : Workload)
  | restartKubeAgentCalled (componentType : ComponentType)
  deriving DecidableEq, Repr

/-- The calls made so far, oldest first. -/
abbrev Trace := List Event

/-- The outside world.  Each answer may depend on the history of calls. -/
structure Env where
  /-- The error of `url.Parse`, if any. -/
  urlParse : String → Option GoError
  /-- The function `http.Get`. -/
  httpGet : Trace → Request → Except GoError HttpResponse
  /-- JSON decoding of a body into `apiResponseForRestart`. -/
  jsonRestart : String → Except GoError apiResponseForRestart
  /-- JSON decoding of a body into `apiResponseForYAML`. -/
  jsonYAML : String → Except GoError apiResponseForYAML
  /-- The function `yaml.Marshal` on a configuration blob. -/
  yamlMarshal : GoMap JSONValue → Except GoError String
  /-- Unix time in seconds, `metav1.Now().Unix()`. -/
  now : Trace → Int
  getConfigMap : Trace → Context → String → String → Except GoError ConfigMap
  updateConfigMap : Trace → Context → String → ConfigMap → Except GoError ConfigMap
  getDaemonSet : Trace → Context → String → String → Except GoError Workload
  updateDaemonSet : Trace → Context → String → Workload → Except GoError Workload
  getDeployment : Trace → Context → String → String → Except GoError Workload
  updateDeployment : Trace → Context → String → Workload → Except GoError Workload

/-- Go `fmt.Errorf` with a message followed by ": %w": the wrapped error. -/
def wrapError (pre : String) (e : GoError) : GoError := ⟨pre ++ ": " ++ e.msg⟩

/-! ## `kubeagentupdater.go`: functions -/

/-- The request built by `UpdateConfigMap`. -/
def yamlRequest (c : KubeAgentConfig) (componentType : ComponentType) : Request :=
  { rawurl := c.APIURLForConfigCheck
    elems := [apiPathForYAML, c.APIKey]
    params := [("platform", "k8s"), ("component_type", componentType.String),
               ("host_id", c.ClusterName), ("cluster", c.ClusterName),
               ("agent_version", c.Version)] }

/-- The request built by `callRestartStatusAPI`. -/
def restartRequest (c : KubeAgentConfig) : Request :=
  { rawurl := c.APIURLForConfigCheck
    elems := [apiPathForRestart, c.APIKey]
    params := [("platform", "k8s"), ("host_id", c.ClusterName),
               ("cluster", c.ClusterName), ("agent_version", c.Version)] }

/-- The read-modify-write of one ConfigMap in `UpdateConfigMap` (one `case` of its
final `switch`). -/
def writeConfigMap (env : Env) (ctx : Context) (ns name yamlData : String)
    (t : Trace) : Result Unit × Trace :=
  -- Retrieve the existing ConfigMap
  let t1 := t ++ [Event.configMapGet ctx ns name]
  match env.getConfigMap t ctx ns name with
  | .error e => (.error (wrapError "failed to get configmap" e), t1)
  | .ok existing =>
    -- Modify the content of the ConfigMap
    match existing.Data.set "otel-config" yamlData with
    | .panicked r => (.panicked r, t1)
    | .error e => (.error e, t1)
    | .ok data =>
      let modified := { existing with Data := data }
      -- Update the ConfigMap
      let t2 := t1 ++ [Event.configMapUpdate ctx ns modified]
      match env.updateConfigMap t1 ctx ns modified with
      | .error e => (.error (wrapError "failed to update configmap" e), t2)
      | .ok _ => (.ok (), t2)

/-- The method `KubeAgentConfig.UpdateConfigMap`. -/
def UpdateConfigMap (env : Env) (c : KubeAgentConfig) (ctx : Context)
    (componentType : ComponentType) (t : Trace) : Result Unit × Trace :=
  match env.urlParse c.APIURLForConfigCheck with
  | some e => (.error e, t)
  | none =>
    let req := yamlRequest c componentType
    let t1 := t ++ [Event.httpGet req]
    match env.httpGet t req with
    | .error e => (.error e, t1)
    | .ok resp =>
      if resp.StatusCode ≠ 200 then
        (.error ⟨"get configuration api returned non-200 status: "
          ++ toString resp.StatusCode⟩, t1)
      else
        -- Read response body
        match resp.Body with
        | .error e => (.error (wrapError "failed to read response body" e), t1)
        | .ok body =>
          -- Unmarshal JSON response into ApiResponse struct
          match env.jsonYAML body with
          | .error e => (.error (wrapError "failed to unmarshal api response" e), t1)
          | .ok apiResponse =>
            -- Verify API Response
            if !apiResponse.Status then
              (.error ⟨"failure status from api response for ingestion rules: false"⟩, t1)
            else if apiResponse.Config.DaemonSet.len = 0
                ∧ apiResponse.Config.Deployment.len = 0 then
              (.error ⟨"failed to get valid response, config docker len: "
                ++ toString apiResponse.Config.Docker.len
                ++ ", config no docker len: "
                ++ toString apiResponse.Config.NoDocker.len⟩, t1)
            else
              let apiYAMLConfig :=
                if componentType = ComponentType.DaemonSet then apiResponse.Config.DaemonSet
                else apiResponse.Config.Deployment
              match env.yamlMarshal apiYAMLConfig with
              | .error e => (.error (wrapError "failed to marshal api data" e), t1)
              | .ok yamlData =>
                if componentType = ComponentType.DaemonSet then
                  writeConfigMap env ctx c.AgentNamespace c.DaemonsetConfigMap yamlData t1
                else if componentType = ComponentType.Deployment then
                  writeConfigMap env ctx c.AgentNamespace c.DeploymentConfigMap yamlData t1
                else
                  (.ok (), t1)

/-- The method `KubeAgentConfig.rolloutRestart`. -/
def rolloutRestart (env : Env) (c : KubeAgentConfig) (ctx : Context)
    (componentType : ComponentType) (t : Trace) : Result Unit × Trace :=
  if componentType = ComponentType.DaemonSet then
    let t1 := t ++ [Event.daemonSetGet ctx c.AgentNamespace c.Daemonset]
    match env.getDaemonSet t ctx c.AgentNamespace c.Daemonset with
    | .error e => (.error e, t1)
    | .ok daemonSet =>
      match daemonSet.TemplateLabels.set Timestamp (toString (env.now t1)) with
      | .panicked r => (.panicked r, t1)
      | .error e => (.error e, t1)
      | .ok labels =>
        let modified := { daemonSet with TemplateLabels := labels }
        let t2 := t1 ++ [Event.daemonSetUpdate ctx c.AgentNamespace modified]
        match env.updateDaemonSet t1 ctx c.AgentNamespace modified with
        | .error e => (.error e, t2)
        | .ok _ => (.ok (), t2)
  else if componentType = ComponentType.Deployment then
    let t1 := t ++ [Event.deploymentGet ctx c.AgentNamespace c.Deployment]
    match env.getDeployment t ctx c.AgentNamespace c.Deployment with
    | .error e => (.error e, t1)
    | .ok deployment =>
      match deployment.TemplateLabels.set Timestamp (toString (env.now t1)) with
      | .panicked r => (.panicked r, t1)
      | .error e => (.error e, t1)
      | .ok labels =>
        let modified := { deployment with TemplateLabels := labels }
        let t2 := t1 ++ [Event.deploymentUpdate ctx c.AgentNamespace modified]
        match env.updateDeployment t1 ctx c.AgentNamespace modified with
        | .error e => (.error e, t2)
        | .ok _ => (.ok (), t2)
  else
    (.ok (), t)

/-- The method `KubeAgentConfig.restartKubeAgent`: rewrites the configmap, then
rollout-restarts the component.  The entry into the method is recorded in the trace
(`restartKubeAgentCalled`), so that invocations of a pipeline can be counted; the
source makes no outside call at that point. -/
def restartKubeAgent (env : Env) (c : KubeAgentConfig) (ctx : Context)
    (componentType : ComponentType) (t : Trace) : Result Unit × Trace :=
  let t0 := t ++ [Event.restartKubeAgentCalled componentType]
  match UpdateConfigMap env c ctx componentType t0 with
  | (.ok _, t1) => rolloutRestart env c ctx componentType t1
  | (updateConfigMapErr, t1) => (updateConfigMapErr, t1)

/-- The method `KubeAgentConfig.callRestartStatusAPI`, from the decoded response on
(the two `if apiResponse.Rollout...` blocks and the final `return err`, where `err`
is nil). -/
def restartFlagged (env : Env) (c : KubeAgentConfig) (ctx : Context)
    (apiResponse : apiResponseForRestart) (t : Trace) : Result Unit × Trace :=
  let afterDaemonset : Result Unit × Trace :=
    if apiResponse.Rollout.Daemonset then
      match restartKubeAgent env c ctx ComponentType.DaemonSet t with
      | (.error e, t1) => (.error (wrapError "error getting updated config" e), t1)
      | r => r
    else (.ok (), t)
  match afterDaemonset with
  | (.ok _, t1) =>
    if apiResponse.Rollout.Deployment then
      match restartKubeAgent env c ctx ComponentType.Deployment t1 with
      | (.error e, t2) => (.error (wrapError "error restarting mw-agent" e), t2)
      | r => r
    else (.ok (), t1)
  | r => r

/-- The method `KubeAgentConfig.callRestartStatusAPI`.  (The message of a failed
`http.Get` also quotes the URL in the source; the URL text is not modelled.) -/
def callRestartStatusAPI (env : Env) (c : KubeAgentConfig) (ctx : Context)
    (t : Trace) : Result Unit × Trace :=
  match env.urlParse c.APIURLForConfigCheck with
  | some e => (.error e, t)
  | none =>
    let req := restartRequest c
    let t1 := t ++ [Event.httpGet req]
    match env.httpGet t req with
    | .error e => (.error (wrapError "failed to call restart api for url" e), t1)
    | .ok resp =>
      if resp.StatusCode ≠ 200 then
        (.error ⟨"restart api returned non-200 status: " ++ toString resp.StatusCode⟩, t1)
      else
        match resp.Body with
        | .error e => (.error (wrapError "failed to unmarshal restart api response" e), t1)
        | .ok body =>
          match env.jsonRestart body with
          | .error e =>
            (.error (wrapError "failed to unmarshal restart api response" e), t1)
          | .ok apiResponse => restartFlagged env c ctx apiResponse t1

/-- The method `KubeAgentConfig.ListenForConfigChanges`: one check; an error of the
check is logged and nil is returned. -/
def ListenForConfigChanges (env : Env) (c : KubeAgentConfig) (ctx : Context)
    (t : Trace) : Result Unit × Trace :=
  match callRestartStatusAPI env c ctx t with
  | (.error _, t1) => (.ok (), t1)
  | r => r

/-! ## Observations on traces -/

/-- A write to a ConfigMap. -/
def Event.isConfigMapWrite : Event → Bool
  | .configMapUpdate _ _ _ => true
  | _ => false

/-- A read of a ConfigMap. -/
def Event.isConfigMapRead : Event → Bool
  | .configMapGet _ _ _ => true
  | _ => false

/-- A write to a workload (DaemonSet or Deployment). -/
def Event.isWorkloadWrite : Event → Bool
  | .daemonSetUpdate _ _ _ => true
  | .deploymentUpdate _ _ _ => true
  | _ => false

/-- A read of a workload (DaemonSet or Deployment). -/
def Event.isWorkloadRead : Event → Bool
  | .daemonSetGet _ _ _ => true
  | .deploymentGet _ _ _ => true
  | _ => false

/-- A read or a write of a workload. -/
def Event.isWorkloadCall (e : Event) : Bool := e.isWorkloadRead || e.isWorkloadWrite

/-- A write to the cluster: ConfigMap or workload. -/
def Event.isWrite (e : Event) : Bool := e.isConfigMapWrite || e.isWorkloadWrite

/-- The entry into the pipeline of the given kind. -/
def Event.isPipelineOf (k : ComponentType) : Event → Bool
  | .restartKubeAgentCalled k1 => k1 = k
  | _ => false

/-- How many times the pipeline of a kind was invoked in a trace. -/
def invocations (k : ComponentType) (t : Trace) : Nat := t.countP (Event.isPipelineOf k)

/-- The name of the ConfigMap of a kind. -/
def configMapNameOf (c : KubeAgentConfig) (k : ComponentType) : String :=
  if k = ComponentType.DaemonSet then c.DaemonsetConfigMap else c.DeploymentConfigMap

/-- The blob of a kind in a configuration response. -/
def blobOf (cfg : configType) (k : ComponentType) : GoMap JSONValue :=
  if k = ComponentType.DaemonSet then cfg.DaemonSet else cfg.Deployment

/-! ## Host portion of a target (the notion used by the target-validation claims) -/

/-- Splits a text at the first occurrence of the scheme separator "://": the part up
to and including the separator, and the rest; `none` when there is no separator. -/
def findScheme : List Char → Option (List Char × List Char)
  | [] => none
  | c :: cs =>
    if c = ':' ∧ cs.take 2 = ['/', '/'] then some (c :: cs.take 2, cs.drop 2)
    else
      match findScheme cs with
      | some (a, b) => some (c :: a, b)
      | none => none

/-- The text after the scheme separator (the whole text when there is none). -/
def afterScheme (s : List Char) : List Char :=
  match findScheme s with
  | some (_, b) => b
  | none => s

/-- The scheme with its separator (empty when there is none). -/
def schemePart (s : List Char) : List Char :=
  match findScheme s with
  | some (a, _) => a
  | none => []

/-- A character that ends the host: start of the path, the query or the fragment. -/
def endsHost (ch : Char) : Bool := ch = '/' || ch = '?' || ch = '#'

/-- The domain (host) portion of a target: the text after the scheme separator up to
the first "/", "?" or "#". -/
def hostPortion (s : List Char) : List Char :=
  (afterScheme s).takeWhile (fun ch => !endsHost ch)

/-- What follows the host portion: path, query and fragment. -/
def afterHost (s : List Char) : List Char :=
  (afterScheme s).dropWhile (fun ch => !endsHost ch)

/-! ## Scripted environments, for running the functions on concrete inputs -/

/-- A configuration with the object names and the default namespace that `main` uses,
and with an API key and a backend URL. -/
def sampleConfig : KubeAgentConfig :=
  { APIKey := "k1"
    APIURLForConfigCheck := "https://app.us1.example.com"
    ClusterName := "c1"
    Version := "0.0.1"
    AgentNamespace := "mw-agent-ns"
    Daemonset := "mw-kube-agent"
    Deployment := "mw-kube-agent"
    DaemonsetConfigMap := "mw-daemonset-otel-config"
    DeploymentConfigMap := "mw-deployment-otel-config" }

/-- A stand-in for `yaml.Marshal` in scripted environments: one line per entry, and
an empty flow mapping for a map without entries. -/
def renderYAML : GoMap JSONValue → String
  | none => "\x7b\x7d\n"
  | some [] => "\x7b\x7d\n"
  | some l => String.join (l.map (fun kv => kv.1 ++ ": " ++ kv.2.raw ++ "\n"))

/-- A script for the outside world: what the backend answers and what the cluster
holds. -/
structure Scenario where
  restart : apiResponseForRestart
  config : configType
  daemonsetConfigMap : Except GoError ConfigMap
  deploymentConfigMap : Except GoError ConfigMap
  daemonSet : Except GoError Workload
  deployment : Except GoError Workload
  clock : Int

/-- The environment that plays a script: every request is answered with status 200,
every update is accepted. -/
def Scenario.env (s : Scenario) : Env :=
  { urlParse := fun _ => none
    httpGet := fun _ req => .ok { StatusCode := 200, Body := .ok (String.intercalate "/" req.elems) }
    jsonRestart := fun _ => .ok s.restart
    jsonYAML := fun _ => .ok { Status := true, Config := s.config, Message := "" }
    yamlMarshal := fun m => .ok (renderYAML m)
    now := fun _ => s.clock
    getConfigMap := fun _ _ _ name =>
      if name = "mw-daemonset-otel-config" then s.daemonsetConfigMap else s.deploymentConfigMap
    updateConfigMap := fun _ _ _ obj => .ok obj
    getDaemonSet := fun _ _ _ _ => s.daemonSet
    updateDaemonSet := fun _ _ _ obj => .ok obj
    getDeployment := fun _ _ _ _ => s.deployment
    updateDeployment := fun _ _ _ obj => .ok obj }

/-- A ConfigMap of the agent with a key besides "otel-config". -/
def sampleConfigMap (name : String) : ConfigMap :=
  { Name := name, Namespace := "mw-agent-ns", ResourceVersion := "7"
    Data := some [("extra", "keep"), ("otel-config", "receivers: old\n")] }

/-- A workload of the agent whose pod template has labels. -/
def sampleWorkload : Workload :=
  { Name := "mw-kube-agent", Namespace := "mw-agent-ns", ResourceVersion := "3"
    TemplateLabels := some [("app", "mw-app")] }

/-- A configuration blob with one entry. -/
def sampleBlob : GoMap JSONValue := some [("receivers", ⟨"\x7b\x7d"⟩)]

/-- A context that has not been cancelled. -/
def background : Context := ⟨false⟩

/-- Both kinds flagged, both blobs present, all cluster objects present. -/
def healthyScenario : Scenario :=
  { restart := { Status := true, Restart := true,
                 Rollout := { Deployment := true, Daemonset := true }, Message := "" }
    config := { Docker := none, NoDocker := none, Deployment := sampleBlob,
                DaemonSet := sampleBlob }
    daemonsetConfigMap := .ok (sampleConfigMap "mw-daemonset-otel-config")
    deploymentConfigMap := .ok (sampleConfigMap "mw-deployment-otel-config")
    daemonSet := .ok sampleWorkload
    deployment := .ok sampleWorkload
    clock := 1700000000 }

/-- Only the DaemonSet is flagged. -/
def daemonsetOnlyScenario : Scenario :=
  { healthyScenario with
    restart := { Status := true, Restart := true,
                 Rollout := { Deployment := false, Daemonset := true }, Message := "" } }

/-- Both kinds flagged, but the ConfigMap of the DaemonSet does not exist. -/
def daemonsetConfigMapMissingScenario : Scenario :=
  { healthyScenario with
    daemonsetConfigMap := .error ⟨"configmaps \"mw-daemonset-otel-config\" not found"⟩ }

/-- The backend answers with empty blobs for both kinds. -/
def emptyBlobsScenario : Scenario :=
  { healthyScenario with
    config := { Docker := none, NoDocker := none, Deployment := none, DaemonSet := none } }

/-- The backend answers with a blob for the DaemonSet only. -/
def daemonsetBlobOnlyScenario : Scenario :=
  { healthyScenario with
    config := { Docker := none, NoDocker := none, Deployment := none,
                DaemonSet := sampleBlob } }

/-! ## Reading a label as a decimal integer -/

/-- The value of a decimal digit. -/
def digitValue (ch : Char) : Option Nat :=
  if ch.isDigit then some (ch.toNat - 48) else none

/-- Reads a run of decimal digits, most significant first, onto an accumulator. -/
def parseDigits (acc : Nat) : List Char → Option Nat
  | [] => some acc
  | ch :: rest =>
    match digitValue ch with
    | some d => parseDigits (acc * 10 + d) rest
    | none => none

/-- Reads a text as a decimal integer: an optional "-" and at least one digit. -/
def parseDecimal (s : String) : Option Int :=
  match s.data with
  | [] => none
  | ['-'] => none
  | '-' :: ds => (parseDigits 0 ds).map (fun n => - (n : Int))
  | ds => (parseDigits 0 ds).map (fun n => (n : Int))

/-- The "timestamp" label of the pod template carried by a workload update. -/
def Event.timestampLabel : Event → Option String
  | .daemonSetUpdate _ _ obj => obj.TemplateLabels.get Timestamp
  | .deploymentUpdate _ _ obj => obj.TemplateLabels.get Timestamp
  | _ => none

/-- The "timestamp" labels written in a trace, oldest first. -/
def writtenTimestamps (t : Trace) : List String := t.filterMap Event.timestampLabel

/-- A write to the workload of the given kind. -/
def Event.isWorkloadWriteOf (k : ComponentType) : Event → Bool
  | .daemonSetUpdate _ _ _ => k = ComponentType.DaemonSet
  | .deploymentUpdate _ _ _ => k = ComponentType.Deployment
  | _ => false

/-! ## Further observations on traces -/

/-- A read or a write of a cluster object: ConfigMap or workload. -/
def Event.isClusterCall (e : Event) : Bool :=
  e.isConfigMapRead || e.isConfigMapWrite || e.isWorkloadRead || e.isWorkloadWrite

/-- An HTTP request. -/
def Event.isHttpGet : Event → Bool
  | .httpGet _ => true
  | _ => false

/-- The restart-status check: a request under `apiPathForRestart`. -/
def Event.isRestartStatusCheck : Event → Bool
  | .httpGet req => req.elems.head? = some apiPathForRestart
  | _ => false

/-- The configuration fetch: a request under `apiPathForYAML`. -/
def Event.isConfigFetch : Event → Bool
  | .httpGet req => req.elems.head? = some apiPathForYAML
  | _ => false

/-- Whether the body of a response can be read and decoded by the given decoder. -/
def HttpResponse.decodes {α : Type} (resp : HttpResponse)
    (decoder : String → Except GoError α) : Bool :=
  match resp.Body with
  | .error _ => false
  | .ok body =>
    match decoder body with
    | .error _ => false
    | .ok _ => true

/-! ## `cmd/kube-config-updater/main.go` -/

/-- The struct `KubeConfig` (its embedded `BaseConfig`): the fields bound to flags. -/
structure KubeConfig where
  APIKey : String
  Target : String
  ConfigCheckInterval : String
  APIURLForConfigCheck : String
  deriving DecidableEq, Repr

/-- The type `KubeAgentConfigOptions`. -/
abbrev KubeAgentConfigOptions := KubeAgentConfig → KubeAgentConfig

def WithKubeAgentConfigVersion (v : String) : KubeAgentConfigOptions :=
  fun h => { h with Version := v }

def WithKubeAgentConfigClusterName (v : String) : KubeAgentConfigOptions :=
  fun k => { k with ClusterName := v }

def WithKubeAgentConfigDaemonset (v : String) : KubeAgentConfigOptions :=
  fun k => { k with Daemonset := v }

def WithKubeAgentConfigDeployment (v : String) : KubeAgentConfigOptions :=
  fun k => { k with Deployment := v }

def WithKubeAgentConfigAgentNamespace (v : String) : KubeAgentConfigOptions :=
  fun k => { k with AgentNamespace := v }

def WithKubeAgentConfigDaemonsetConfigMap (v : String) : KubeAgentConfigOptions :=
  fun k => { k with DaemonsetConfigMap := v }

def WithKubeAgentConfigDeploymentConfigMap (v : String) : KubeAgentConfigOptions :=
  fun k => { k with DeploymentConfigMap := v }

/-- The function `NewKubeAgentConfig`: the agent holds a copy of `cfg` as it is at the
time of the call (`agent.KubeConfig = cfg`), then the options are applied. -/
def NewKubeAgentConfig (cfg : KubeConfig) (opts : List KubeAgentConfigOptions) :
    KubeAgentConfig :=
  let agent : KubeAgentConfig :=
    { APIKey := cfg.APIKey
      APIURLForConfigCheck := cfg.APIURLForConfigCheck
      ClusterName := "", Version := "", AgentNamespace := "", Daemonset := ""
      Deployment := "", DaemonsetConfigMap := "", DeploymentConfigMap := "" }
  opts.foldl (fun a apply => apply a) agent

def agentVersion : String := "0.0.1"

/-- The two commands of the application. -/
inductive Command where
  | update
  | forceUpdateConfigmaps
  deriving DecidableEq, Repr

/-- What the process is started with: two environment variables, whether the
in-cluster client can be built (`SetClientSet`), the command, and the values that the
flags (or the environment variables behind them) give to `cfg` when they are parsed. -/
structure Process where
  MW_NAMESPACE : String
  MW_KUBE_CLUSTER_NAME : String
  setClientSetError : Option GoError
  command : Command
  flags : KubeConfig

/-- The `Action` of the command `update`; `KubeAgentConfig` is the variable of `main`
captured by the closure, `cfg` holds the parsed flags. -/
def updateAction (env : Env) (KubeAgentConfig : KubeAgentConfig) (cfg : KubeConfig)
    (ctx : Context) (t : Trace) : Result Unit × Trace :=
  let derived : Except GoError KubeConfig :=
    if cfg.APIURLForConfigCheck = "" then
      match GetAPIURLForConfigCheck cfg.Target with
      -- could not derive api url for config check from target
      | (_, some err) => .error err
      | (u, none) => .ok { cfg with APIURLForConfigCheck := u }
    else .ok cfg
  match derived with
  | .error err => (.error err, t)
  | .ok cfg1 =>
    if cfg1.ConfigCheckInterval ≠ "0" then
      ListenForConfigChanges env KubeAgentConfig ctx t
    else (.ok (), t)

/-- The `Action` of the command `force-update-configmaps`: the two calls of
`UpdateConfigMap`, whose returned errors are dropped. -/
def forceUpdateAction (env : Env) (KubeAgentConfig : KubeAgentConfig) (ctx : Context)
    (t : Trace) : Result Unit × Trace :=
  match UpdateConfigMap env KubeAgentConfig ctx ComponentType.Deployment t with
  | (.panicked r, t1) => (.panicked r, t1)
  | (_, t1) =>
    match UpdateConfigMap env KubeAgentConfig ctx ComponentType.DaemonSet t1 with
    | (.panicked r, t2) => (.panicked r, t2)
    | (_, t2) => (.ok (), t2)

/-- The `KubeAgentConfig` that `main` builds, before the flags are parsed, from the
zero value of `cfg` (`var cfg configupdater.KubeConfig`). -/
def mainKubeAgentConfig (p : Process) : KubeAgentConfig :=
  let cfg : KubeConfig :=
    { APIKey := "", Target := "", ConfigCheckInterval := "", APIURLForConfigCheck := "" }
  let mwNamespace := if p.MW_NAMESPACE = "" then "mw-agent-ns" else p.MW_NAMESPACE
  NewKubeAgentConfig cfg
    [WithKubeAgentConfigClusterName p.MW_KUBE_CLUSTER_NAME,
     WithKubeAgentConfigAgentNamespace mwNamespace,
     WithKubeAgentConfigDaemonset "mw-kube-agent",
     WithKubeAgentConfigDeployment "mw-kube-agent",
     WithKubeAgentConfigDaemonsetConfigMap "mw-daemonset-otel-config",
     WithKubeAgentConfigDeploymentConfigMap "mw-deployment-otel-config",
     WithKubeAgentConfigVersion agentVersion]

/-- The function `main`: builds `KubeAgentConfig`, sets the client set (an error there
is fatal), then `app.Run` parses the flags into `cfg` and runs the action of the
command with a context that has not been cancelled. -/
def main (env : Env) (p : Process) (t : Trace) : Result Unit × Trace :=
  let KubeAgentConfig := mainKubeAgentConfig p
  match p.setClientSetError with
  | some err => (.error err, t)
  | none =>
    let cfg := p.flags
    match p.command with
    | .update => updateAction env KubeAgentConfig cfg background t
    | .forceUpdateConfigmaps => forceUpdateAction env KubeAgentConfig background t

/-! ## Further scripted environments -/

/-- The environment of a script in which the backend answers every request with the
given status code. -/
def Scenario.envWithStatus (s : Scenario) (code : Nat) : Env :=
  { s.env with
    httpGet := fun _ req =>
      .ok { StatusCode := code, Body := .ok (String.intercalate "/" req.elems) } }

/-- The environment of a script in which no body can be decoded. -/
def Scenario.envUndecodable (s : Scenario) : Env :=
  { s.env with
    jsonRestart := fun _ => .error ⟨"invalid character"⟩
    jsonYAML := fun _ => .error ⟨"invalid character"⟩ }

/-- The environment of a script in which the cluster client refuses every call made
with a cancelled context. -/
def Scenario.envHonouringContext (s : Scenario) : Env :=
  { s.env with
    getConfigMap := fun h ctx ns name =>
      if ctx.cancelled then .error ⟨"context canceled"⟩ else s.env.getConfigMap h ctx ns name
    updateConfigMap := fun h ctx ns obj =>
      if ctx.cancelled then .error ⟨"context canceled"⟩
      else s.env.updateConfigMap h ctx ns obj
    getDaemonSet := fun h ctx ns name =>
      if ctx.cancelled then .error ⟨"context canceled"⟩ else s.env.getDaemonSet h ctx ns name
    updateDaemonSet := fun h ctx ns obj =>
      if ctx.cancelled then .error ⟨"context canceled"⟩
      else s.env.updateDaemonSet h ctx ns obj
    getDeployment := fun h ctx ns name =>
      if ctx.cancelled then .error ⟨"context canceled"⟩ else s.env.getDeployment h ctx ns name
    updateDeployment := fun h ctx ns obj =>
      if ctx.cancelled then .error ⟨"context canceled"⟩
      else s.env.updateDeployment h ctx ns obj }

/-- A context that has been cancelled. -/
def cancelledContext : Context := ⟨true⟩

/-- A ConfigMap that exists but has no data: its `Data` map is nil. -/
def emptyConfigMap (name : String) : ConfigMap :=
  { Name := name, Namespace := "mw-agent-ns", ResourceVersion := "7", Data := none }

/-- The ConfigMaps of both kinds exist without data. -/
def noDataScenario : Scenario :=
  { healthyScenario with
    daemonsetConfigMap := .ok (emptyConfigMap "mw-daemonset-otel-config")
    deploymentConfigMap := .ok (emptyConfigMap "mw-deployment-otel-config") }

/-- The workloads of both kinds have a pod template without labels (nil map). -/
def noLabelsScenario : Scenario :=
  { healthyScenario with
    daemonSet := .ok { sampleWorkload with TemplateLabels := none }
    deployment := .ok { sampleWorkload with TemplateLabels := none } }

/-- The same cluster and backend as `healthyScenario`, one second later. -/
def laterScenario : Scenario := { healthyScenario with clock := 1700000001 }

/-- The process of the end-to-end example: command `update`, target and API key given
by flags, no explicit URL for the configuration check. -/
def sampleProcess : Process :=
  { MW_NAMESPACE := "", MW_KUBE_CLUSTER_NAME := "c1", setClientSetError := none
    command := .update
    flags := { APIKey := "k1", Target := "https://app.us1.example.com"
               ConfigCheckInterval := "60s", APIURLForConfigCheck := "" } }

/-! ## Theorems: `strings` -/

theorem stringsSplit_length (sep : Char) (s : List Char) :
    (stringsSplit sep s).length = countChar sep s + 1 := by
  induction s with
  | nil => simp [stringsSplit, countChar]
  | cons c cs ih =>
    unfold stringsSplit
    by_cases h : c = sep
    · subst h
      simp [countChar] at ih ⊢
      exact ih
    · simp only [h, if_false]
      have hc : countChar sep (c :: cs) = countChar sep cs := by
        simp [countChar, List.count_cons, h]
      rw [hc, ← ih]
      cases hs : stringsSplit sep cs with
      | nil => rw [hs] at ih; simp at ih
      | cons p ps => simp

theorem stringsHasSuffix_iff (s suffix : List Char) :
    stringsHasSuffix s suffix = true ↔ ∃ p, s = p ++ suffix := by
  unfold stringsHasSuffix
  constructor
  · intro h
    simp only [Bool.and_eq_true, decide_eq_true_eq, beq_iff_eq] at h
    refine ⟨s.take (s.length - suffix.length), ?_⟩
    conv_lhs => rw [← List.take_append_drop (s.length - suffix.length) s]
    rw [h.2]
  · rintro ⟨p, rfl⟩
    simp

theorem stringsTrimSuffix_append (p suffix : List Char) :
    stringsTrimSuffix (p ++ suffix) suffix = p := by
  have h : stringsHasSuffix (p ++ suffix) suffix = true :=
    (stringsHasSuffix_iff _ _).2 ⟨p, rfl⟩
  simp [stringsTrimSuffix, h]

theorem stringsTrimSuffix_of_not (s suffix : List Char)
    (h : stringsHasSuffix s suffix = false) : stringsTrimSuffix s suffix = s := by
  simp [stringsTrimSuffix, h]

/-- Trimming one trailing slash leaves a trailing slash exactly when there were two. -/
theorem stringsTrimSuffix_slash (s : List Char) :
    stringsHasSuffix (stringsTrimSuffix s ['/']) ['/'] = stringsHasSuffix s ['/', '/'] := by
  cases h : stringsHasSuffix s ['/'] with
  | true =>
    obtain ⟨p, rfl⟩ := (stringsHasSuffix_iff _ _).1 h
    rw [stringsTrimSuffix_append]
    rw [Bool.eq_iff_iff, stringsHasSuffix_iff, stringsHasSuffix_iff]
    constructor
    · rintro ⟨q, rfl⟩
      exact ⟨q, by simp⟩
    · rintro ⟨q, hq⟩
      refine ⟨q, ?_⟩
      have : p ++ ['/'] = (q ++ ['/']) ++ ['/'] := by simpa using hq
      exact List.append_cancel_right this
  | false =>
    rw [stringsTrimSuffix_of_not _ _ h, h]
    symm
    rw [Bool.eq_false_iff]
    intro h2
    obtain ⟨q, rfl⟩ := (stringsHasSuffix_iff _ _).1 h2
    have : stringsHasSuffix (q ++ ['/', '/']) ['/'] = true :=
      (stringsHasSuffix_iff _ _).2 ⟨q ++ ['/'], by simp⟩
    rw [this] at h
    exact Bool.noConfusion h

theorem GetAPIURLForConfigCheck_eq (target : String) :
    GetAPIURLForConfigCheck target =
      if countChar '.' target.data < 2 then ("", some ErrInvalidTarget)
      else (String.mk (stringsTrimSuffix target.data ['/']), none) := by
  unfold GetAPIURLForConfigCheck
  simp only [stringsSplit_length]
  by_cases h : countChar '.' target.data < 2
  · have h3 : countChar '.' target.data + 1 < 3 := by omega
    simp [h, h3]
  · have h3 : ¬ countChar '.' target.data + 1 < 3 := by omega
    simp [h, h3]

theorem findScheme_append (s a b : List Char) (h : findScheme s = some (a, b)) :
    a ++ b = s := by
  induction s generalizing a b with
  | nil => simp [findScheme] at h
  | cons c cs ih =>
    unfold findScheme at h
    split at h
    · simp only [Option.some.injEq, Prod.mk.injEq] at h
      obtain ⟨rfl, rfl⟩ := h
      simp
    · cases hf : findScheme cs with
      | none => rw [hf] at h; simp at h
      | some ab =>
        obtain ⟨a1, b1⟩ := ab
        rw [hf] at h
        simp only [Option.some.injEq, Prod.mk.injEq] at h
        obtain ⟨rfl, rfl⟩ := h
        simp [ih a1 b1 hf]

/-- A target is its scheme part, its host portion and what follows the host. -/
theorem target_decomposition (s : List Char) :
    schemePart s ++ hostPortion s ++ afterHost s = s := by
  unfold schemePart hostPortion afterHost afterScheme
  cases hf : findScheme s with
  | none => simp
  | some ab =>
    obtain ⟨a, b⟩ := ab
    simp [List.append_assoc, findScheme_append s a b hf]

theorem countChar_decomposition (ch : Char) (s : List Char) :
    countChar ch s
      = countChar ch (schemePart s) + countChar ch (hostPortion s)
        + countChar ch (afterHost s) := by
  conv_lhs => rw [← target_decomposition s]
  simp only [countChar, List.count_append]

/-! ## Theorems: target resolution -/

/-- C8: `GetAPIURLForConfigCheck` returns `ErrInvalidTarget` exactly when the target
contains fewer than two "." characters: with fewer than two it returns the empty
string and `ErrInvalidTarget`, with at least two it returns a nil error. -/
theorem GetAPIURLForConfigCheck_error_iff (target : String) :
    ((GetAPIURLForConfigCheck target).2 = some ErrInvalidTarget
        ↔ countChar '.' target.data < 2)
    ∧ ((GetAPIURLForConfigCheck target).2 = none ↔ 2 ≤ countChar '.' target.data)
    ∧ ((GetAPIURLForConfigCheck target).2 = some ErrInvalidTarget
        ↔ GetAPIURLForConfigCheck target = ("", some ErrInvalidTarget)) := by
  rw [GetAPIURLForConfigCheck_eq]
  by_cases h : countChar '.' target.data < 2
  · simp [h]
  · simp [h]
    omega

/-- C9 fails as stated: the accepted target "a.b.c//" yields "a.b.c/", which ends
with a slash. -/
theorem GetAPIURLForConfigCheck_double_slash_counterexample :
    GetAPIURLForConfigCheck "a.b.c//" = ("a.b.c/", none)
    ∧ stringsHasSuffix (GetAPIURLForConfigCheck "a.b.c//").1.data ['/'] = true := by
  decide

/-- C9 (amended): for every accepted target the returned base URL is the target with
one trailing "/" removed, if it had one; it ends with "/" exactly when the target ends
with "//". -/
theorem GetAPIURLForConfigCheck_trims_one_slash (target : String)
    (hacc : (GetAPIURLForConfigCheck target).2 = none) :
    (GetAPIURLForConfigCheck target).1.data = stringsTrimSuffix target.data ['/']
    ∧ stringsHasSuffix (GetAPIURLForConfigCheck target).1.data ['/']
        = stringsHasSuffix target.data ['/', '/'] := by
  rw [GetAPIURLForConfigCheck_eq] at hacc ⊢
  by_cases h : countChar '.' target.data < 2
  · simp [h] at hacc
  · simp only [h, if_false]
    exact ⟨trivial, stringsTrimSuffix_slash _⟩

theorem GetAPIURLForConfigCheck_trims_one_slash_witness :
    (GetAPIURLForConfigCheck "https://app.us1.example.com/").2 = none
    ∧ (GetAPIURLForConfigCheck "https://app.us1.example.com/").1.data
        = "https://app.us1.example.com".data
    ∧ stringsHasSuffix (GetAPIURLForConfigCheck "https://app.us1.example.com/").1.data ['/']
        = false :=
  ⟨by decide,
   (GetAPIURLForConfigCheck_trims_one_slash "https://app.us1.example.com/" (by decide)).1.trans
     (by decide),
   (GetAPIURLForConfigCheck_trims_one_slash "https://app.us1.example.com/" (by decide)).2.trans
     (by decide)⟩

/-- C10 fails as stated: the host of "https://localhost/a.b.c" has no "." at all, and
the target is accepted because of the two "." in its path. -/
theorem GetAPIURLForConfigCheck_dotted_path_counterexample :
    hostPortion "https://localhost/a.b.c".data = "localhost".data
    ∧ countChar '.' (hostPortion "https://localhost/a.b.c".data) < 2
    ∧ GetAPIURLForConfigCheck "https://localhost/a.b.c" = ("https://localhost/a.b.c", none) := by
  decide

/-- C10 (amended): for every target whose host portion contains fewer than two ".",
`GetAPIURLForConfigCheck` returns `ErrInvalidTarget` exactly when the "." of the host
together with the "." elsewhere in the string (scheme, path, query) are fewer than
two; in particular a bare host is rejected when the rest of the string has no ".". -/
theorem GetAPIURLForConfigCheck_bare_host (target : String)
    (hhost : countChar '.' (hostPortion target.data) < 2) :
    (GetAPIURLForConfigCheck target = ("", some ErrInvalidTarget)
      ↔ countChar '.' (hostPortion target.data) + countChar '.' (schemePart target.data)
          + countChar '.' (afterHost target.data) < 2)
    ∧ (countChar '.' (schemePart target.data) + countChar '.' (afterHost target.data) = 0
        → GetAPIURLForConfigCheck target = ("", some ErrInvalidTarget)) := by
  rw [GetAPIURLForConfigCheck_eq]
  have hd := countChar_decomposition '.' target.data
  by_cases h : countChar '.' target.data < 2
  · simp only [h, if_true, true_iff, true_and]
    refine ⟨by omega, fun _ => trivial⟩
  · simp only [h, if_false]
    constructor
    · constructor
      · intro he
        simp at he
      · intro hlt
        omega
    · intro h0
      omega

theorem GetAPIURLForConfigCheck_bare_host_witness :
    countChar '.' (hostPortion "https://localhost/index".data) < 2
    ∧ GetAPIURLForConfigCheck "https://localhost/index" = ("", some ErrInvalidTarget) :=
  ⟨by decide,
   (GetAPIURLForConfigCheck_bare_host "https://localhost/index" (by decide)).2 (by decide)⟩

/-! ## Theorems: symbolic execution of the update path -/

theorem assocGet_assocSet_ne {α : Type} (k k2 : String) (v : α) (l : List (String × α))
    (h : k2 ≠ k) : assocGet k2 (assocSet k v l) = assocGet k2 l := by
  induction l with
  | nil => simp [assocSet, assocGet, Ne.symm h]
  | cons p rest ih =>
    obtain ⟨k1, v1⟩ := p
    unfold assocSet
    by_cases h1 : k1 = k
    · subst h1
      simp [assocGet, Ne.symm h]
    · simp only [h1, if_false]
      unfold assocGet
      rw [ih]

theorem assocGet_assocSet_self {α : Type} (k : String) (v : α) (l : List (String × α)) :
    assocGet k (assocSet k v l) = some v := by
  induction l with
  | nil => simp [assocSet, assocGet]
  | cons p rest ih =>
    obtain ⟨k1, v1⟩ := p
    unfold assocSet
    by_cases h1 : k1 = k
    · simp [h1, assocGet]
    · simp only [h1, if_false]
      unfold assocGet
      simp [h1, ih]

/-- The two ways `writeConfigMap` can go: the read fails or the data map is nil (no
write, no success), or the object read is written back with "otel-config" set. -/
theorem writeConfigMap_cases (env : Env) (ctx : Context) (ns name yamlData : String)
    (t : Trace) :
    (∃ r, writeConfigMap env ctx ns name yamlData t
            = (r, t ++ [Event.configMapGet ctx ns name]) ∧ r.isOk = false)
    ∨ (∃ existing l r,
        env.getConfigMap t ctx ns name = .ok existing ∧ existing.Data = some l
        ∧ writeConfigMap env ctx ns name yamlData t
            = (r, t ++ [Event.configMapGet ctx ns name,
                Event.configMapUpdate ctx ns
                  { existing with Data := some (assocSet "otel-config" yamlData l) }])
        ∧ (r = .ok () ∨ r.isError = true)) := by
  cases hg : env.getConfigMap t ctx ns name with
  | error e =>
    exact Or.inl ⟨.error (wrapError "failed to get configmap" e),
      by simp [writeConfigMap, hg], rfl⟩
  | ok existing =>
    cases hd : existing.Data with
    | none =>
      exact Or.inl ⟨.panicked "assignment to entry in nil map",
        by simp [writeConfigMap, hg, GoMap.set, hd], rfl⟩
    | some l =>
      right
      cases hu : env.updateConfigMap (t ++ [Event.configMapGet ctx ns name]) ctx ns
          { existing with Data := some (assocSet "otel-config" yamlData l) } with
      | error e =>
        exact ⟨existing, l, .error (wrapError "failed to update configmap" e), rfl, hd,
          by simp [writeConfigMap, hg, GoMap.set, hd, hu], Or.inr rfl⟩
      | ok o =>
        exact ⟨existing, l, .ok (), rfl, hd,
          by simp [writeConfigMap, hg, GoMap.set, hd, hu], Or.inl rfl⟩

/-- The ways `UpdateConfigMap` can go: an error before the request, an error after the
request and before any cluster call, or a usable response whose blob for the kind is
handed to `writeConfigMap`. -/
theorem UpdateConfigMap_cases (env : Env) (c : KubeAgentConfig) (ctx : Context)
    (k : ComponentType) (t : Trace) :
    (∃ e, UpdateConfigMap env c ctx k t = (.error e, t))
    ∨ (∃ e, UpdateConfigMap env c ctx k t = (.error e, t ++ [Event.httpGet (yamlRequest c k)]))
    ∨ (∃ resp body api yamlData,
        env.httpGet t (yamlRequest c k) = .ok resp ∧ resp.StatusCode = 200
        ∧ resp.Body = .ok body ∧ env.jsonYAML body = .ok api ∧ api.Status = true
        ∧ ¬ (api.Config.DaemonSet.len = 0 ∧ api.Config.Deployment.len = 0)
        ∧ env.yamlMarshal (blobOf api.Config k) = .ok yamlData
        ∧ ((k.IsKind ∧ UpdateConfigMap env c ctx k t
              = writeConfigMap env ctx c.AgentNamespace (configMapNameOf c k) yamlData
                  (t ++ [Event.httpGet (yamlRequest c k)]))
           ∨ (¬ k.IsKind ∧ UpdateConfigMap env c ctx k t
              = (.ok (), t ++ [Event.httpGet (yamlRequest c k)])))) := by
  cases hp : env.urlParse c.APIURLForConfigCheck with
  | some e => exact Or.inl ⟨e, by simp [UpdateConfigMap, hp]⟩
  | none =>
    right
    cases hg : env.httpGet t (yamlRequest c k) with
    | error e => exact Or.inl ⟨e, by simp [UpdateConfigMap, hp, hg]⟩
    | ok resp =>
      by_cases hs : resp.StatusCode = 200
      · cases hb : resp.Body with
        | error e => exact Or.inl ⟨_, by simp [UpdateConfigMap, hp, hg, hs, hb]; rfl⟩
        | ok body =>
          cases hj : env.jsonYAML body with
          | error e => exact Or.inl ⟨_, by simp [UpdateConfigMap, hp, hg, hs, hb, hj]; rfl⟩
          | ok api =>
            cases hst : api.Status with
            | false => exact Or.inl ⟨_, by simp [UpdateConfigMap, hp, hg, hs, hb, hj, hst]; rfl⟩
            | true =>
              by_cases he : api.Config.DaemonSet.len = 0 ∧ api.Config.Deployment.len = 0
              · exact Or.inl ⟨_, by simp [UpdateConfigMap, hp, hg, hs, hb, hj, hst, he]; rfl⟩
              · cases hy : env.yamlMarshal (blobOf api.Config k) with
                | error e =>
                  refine Or.inl ⟨wrapError "failed to marshal api data" e, ?_⟩
                  simp only [blobOf] at hy
                  simp [UpdateConfigMap, hp, hg, hs, hb, hj, hst, he, hy]
                | ok yamlData =>
                  refine Or.inr ⟨resp, body, api, yamlData, rfl, hs, hb, hj, hst, he, hy, ?_⟩
                  simp only [blobOf] at hy
                  by_cases hk1 : k = ComponentType.DaemonSet
                  · left
                    refine ⟨Or.inl hk1, ?_⟩
                    subst hk1
                    simp only [if_true] at hy
                    simp [UpdateConfigMap, hp, hg, hs, hb, hj, hst, he, hy, configMapNameOf]
                  · by_cases hk2 : k = ComponentType.Deployment
                    · left
                      refine ⟨Or.inr hk2, ?_⟩
                      subst hk2
                      simp only [hk1, if_false] at hy
                      simp [UpdateConfigMap, hp, hg, hs, hb, hj, hst, he, hy, hk1,
                        configMapNameOf]
                    · right
                      refine ⟨fun h => h.elim hk1 hk2, ?_⟩
                      simp only [hk1, if_false] at hy
                      simp [UpdateConfigMap, hp, hg, hs, hb, hj, hst, he, hy, hk1, hk2]
      · exact Or.inl ⟨_, by simp [UpdateConfigMap, hp, hg, hs]; rfl⟩

/-- The two ways `rolloutRestart` can go for a declared kind: the workload is read and
the call does not succeed (the read fails, or the label map is nil), with no write; or
the workload is read and written back once. -/
theorem rolloutRestart_cases (env : Env) (c : KubeAgentConfig) (ctx : Context)
    (k : ComponentType) (hk : k.IsKind) (t : Trace) :
    (∃ r e, rolloutRestart env c ctx k t = (r, t ++ [e]) ∧ r.isOk = false
        ∧ e.isWorkloadRead = true)
    ∨ (∃ r e w, rolloutRestart env c ctx k t = (r, t ++ [e, w])
        ∧ (r = .ok () ∨ r.isError = true)
        ∧ e.isWorkloadRead = true ∧ w.isWorkloadWrite = true) := by
  rcases hk with rfl | rfl
  · cases hg : env.getDaemonSet t ctx c.AgentNamespace c.Daemonset with
    | error e =>
      exact Or.inl ⟨.error e, Event.daemonSetGet ctx c.AgentNamespace c.Daemonset,
        by simp [rolloutRestart, hg], rfl, rfl⟩
    | ok ds =>
      cases hd : ds.TemplateLabels with
      | none =>
        exact Or.inl ⟨.panicked "assignment to entry in nil map",
          Event.daemonSetGet ctx c.AgentNamespace c.Daemonset,
          by simp [rolloutRestart, hg, GoMap.set, hd], rfl, rfl⟩
      | some l =>
        right
        cases hu : env.updateDaemonSet
            (t ++ [Event.daemonSetGet ctx c.AgentNamespace c.Daemonset]) ctx c.AgentNamespace
            { ds with TemplateLabels := some (assocSet Timestamp
                (toString (env.now (t ++ [Event.daemonSetGet ctx c.AgentNamespace c.Daemonset])))
                l) } with
        | error e =>
          exact ⟨.error e, Event.daemonSetGet ctx c.AgentNamespace c.Daemonset,
            Event.daemonSetUpdate ctx c.AgentNamespace
              { ds with TemplateLabels := some (assocSet Timestamp
                (toString (env.now (t ++ [Event.daemonSetGet ctx c.AgentNamespace c.Daemonset])))
                l) },
            by simp [rolloutRestart, hg, GoMap.set, hd, hu], Or.inr rfl, rfl, rfl⟩
        | ok o =>
          exact ⟨.ok (), Event.daemonSetGet ctx c.AgentNamespace c.Daemonset,
            Event.daemonSetUpdate ctx c.AgentNamespace
              { ds with TemplateLabels := some (assocSet Timestamp
                (toString (env.now (t ++ [Event.daemonSetGet ctx c.AgentNamespace c.Daemonset])))
                l) },
            by simp [rolloutRestart, hg, GoMap.set, hd, hu], Or.inl rfl, rfl, rfl⟩
  · have hne : ComponentType.Deployment ≠ ComponentType.DaemonSet := by decide
    cases hg : env.getDeployment t ctx c.AgentNamespace c.Deployment with
    | error e =>
      exact Or.inl ⟨.error e, Event.deploymentGet ctx c.AgentNamespace c.Deployment,
        by simp [rolloutRestart, hne, hg], rfl, rfl⟩
    | ok ds =>
      cases hd : ds.TemplateLabels with
      | none =>
        exact Or.inl ⟨.panicked "assignment to entry in nil map",
          Event.deploymentGet ctx c.AgentNamespace c.Deployment,
          by simp [rolloutRestart, hne, hg, GoMap.set, hd], rfl, rfl⟩
      | some l =>
        right
        cases hu : env.updateDeployment
            (t ++ [Event.deploymentGet ctx c.AgentNamespace c.Deployment]) ctx c.AgentNamespace
            { ds with TemplateLabels := some (assocSet Timestamp
                (toString (env.now (t ++ [Event.deploymentGet ctx c.AgentNamespace c.Deployment])))
                l) } with
        | error e =>
          exact ⟨.error e, Event.deploymentGet ctx c.AgentNamespace c.Deployment,
            Event.deploymentUpdate ctx c.AgentNamespace
              { ds with TemplateLabels := some (assocSet Timestamp
                (toString (env.now (t ++ [Event.deploymentGet ctx c.AgentNamespace c.Deployment])))
                l) },
            by simp [rolloutRestart, hne, hg, GoMap.set, hd, hu], Or.inr rfl, rfl, rfl⟩
        | ok o =>
          exact ⟨.ok (), Event.deploymentGet ctx c.AgentNamespace c.Deployment,
            Event.deploymentUpdate ctx c.AgentNamespace
              { ds with TemplateLabels := some (assocSet Timestamp
                (toString (env.now (t ++ [Event.deploymentGet ctx c.AgentNamespace c.Deployment])))
                l) },
            by simp [rolloutRestart, hne, hg, GoMap.set, hd, hu], Or.inl rfl, rfl, rfl⟩

theorem Event.workloadRead_facts (e : Event) (h : e.isWorkloadRead = true) :
    e.isConfigMapWrite = false ∧ e.isWorkloadWrite = false ∧ e.isWrite = false
    ∧ e.isConfigMapRead = false ∧ e.isWorkloadCall = true := by
  cases e <;>
    simp_all [Event.isWorkloadRead, Event.isConfigMapWrite, Event.isWorkloadWrite,
      Event.isWrite, Event.isConfigMapRead, Event.isWorkloadCall]

theorem Event.workloadWrite_facts (e : Event) (h : e.isWorkloadWrite = true) :
    e.isConfigMapWrite = false ∧ e.isWorkloadRead = false ∧ e.isWrite = true
    ∧ e.isConfigMapRead = false ∧ e.isWorkloadCall = true := by
  cases e <;>
    simp_all [Event.isWorkloadRead, Event.isConfigMapWrite, Event.isWorkloadWrite,
      Event.isWrite, Event.isConfigMapRead, Event.isWorkloadCall]

/-- The shape of a run of `UpdateConfigMap`: either it does not succeed and stops
before any ConfigMap write, or it is called with an undeclared kind and stops after
the request, or it reads the ConfigMap of the kind and writes it back once with
"otel-config" set to the serialised blob of the kind. -/
theorem UpdateConfigMap_shape (env : Env) (c : KubeAgentConfig) (ctx : Context)
    (k : ComponentType) (t : Trace) :
    ((UpdateConfigMap env c ctx k t).1.isOk = false
      ∧ ((UpdateConfigMap env c ctx k t).2 = t
        ∨ (UpdateConfigMap env c ctx k t).2 = t ++ [Event.httpGet (yamlRequest c k)]
        ∨ (UpdateConfigMap env c ctx k t).2
            = t ++ [Event.httpGet (yamlRequest c k),
                Event.configMapGet ctx c.AgentNamespace (configMapNameOf c k)]))
    ∨ (¬ k.IsKind
        ∧ UpdateConfigMap env c ctx k t = (.ok (), t ++ [Event.httpGet (yamlRequest c k)]))
    ∨ (∃ resp body api yamlData existing l,
        k.IsKind
        ∧ env.httpGet t (yamlRequest c k) = .ok resp ∧ resp.StatusCode = 200
        ∧ resp.Body = .ok body ∧ env.jsonYAML body = .ok api ∧ api.Status = true
        ∧ ¬ (api.Config.DaemonSet.len = 0 ∧ api.Config.Deployment.len = 0)
        ∧ env.yamlMarshal (blobOf api.Config k) = .ok yamlData
        ∧ env.getConfigMap (t ++ [Event.httpGet (yamlRequest c k)]) ctx c.AgentNamespace
            (configMapNameOf c k) = .ok existing
        ∧ existing.Data = some l
        ∧ (UpdateConfigMap env c ctx k t).2
            = t ++ [Event.httpGet (yamlRequest c k),
                Event.configMapGet ctx c.AgentNamespace (configMapNameOf c k),
                Event.configMapUpdate ctx c.AgentNamespace
                  { existing with Data := some (assocSet "otel-config" yamlData l) }]
        ∧ ((UpdateConfigMap env c ctx k t).1 = .ok ()
            ∨ (UpdateConfigMap env c ctx k t).1.isError = true)) := by
  rcases UpdateConfigMap_cases env c ctx k t with ⟨e, h⟩ | ⟨e, h⟩ | h
  · exact Or.inl ⟨by rw [h]; rfl, Or.inl (by rw [h])⟩
  · exact Or.inl ⟨by rw [h]; rfl, Or.inr (Or.inl (by rw [h]))⟩
  · obtain ⟨resp, body, api, yamlData, hg, hs, hb, hj, hst, he, hy, hw⟩ := h
    rcases hw with ⟨hk, hw⟩ | ⟨hk, hw⟩
    · rcases writeConfigMap_cases env ctx c.AgentNamespace (configMapNameOf c k) yamlData
          (t ++ [Event.httpGet (yamlRequest c k)]) with ⟨r, h1, h2⟩ | ⟨ex, l, r, h1, h2, h3, h4⟩
      · refine Or.inl ⟨by rw [hw, h1]; exact h2, Or.inr (Or.inr ?_)⟩
        rw [hw, h1]
        simp
      · refine Or.inr (Or.inr ⟨resp, body, api, yamlData, ex, l, hk, hg, hs, hb, hj, hst, he,
          hy, h1, h2, ?_, ?_⟩)
        · rw [hw, h3]
          simp
        · rw [hw, h3]
          exact h4
    · exact Or.inr (Or.inl ⟨hk, hw⟩)

/-- The trace of `restartKubeAgent` starts with the entry into the pipeline, followed
by the run of `UpdateConfigMap`, followed (only when that returned no error) by the
run of `rolloutRestart`. -/
theorem restartKubeAgent_eq (env : Env) (c : KubeAgentConfig) (ctx : Context)
    (k : ComponentType) (t : Trace) :
    restartKubeAgent env c ctx k t
      = if (UpdateConfigMap env c ctx k (t ++ [Event.restartKubeAgentCalled k])).1.isOk
        then rolloutRestart env c ctx k
          (UpdateConfigMap env c ctx k (t ++ [Event.restartKubeAgentCalled k])).2
        else UpdateConfigMap env c ctx k (t ++ [Event.restartKubeAgentCalled k]) := by
  rcases hu : UpdateConfigMap env c ctx k (t ++ [Event.restartKubeAgentCalled k]) with ⟨r, t1⟩
  cases r <;> simp [restartKubeAgent, hu, Result.isOk]

/-! ## Theorems: the update pipeline -/

/-- C1: in `restartKubeAgent`, for each of the two kinds and every environment, the
workload is touched only after `UpdateConfigMap` returned without error.  When
`UpdateConfigMap` does not succeed, `restartKubeAgent` ends there and no workload read
or write is issued.  When it succeeds, exactly one ConfigMap write and no workload call
has been made by then, and `rolloutRestart` runs next, adding no ConfigMap write and at
most one workload write.  When `restartKubeAgent` succeeds, its writes are exactly one
ConfigMap write followed by exactly one workload write. -/
theorem restartKubeAgent_config_before_rollout (env : Env) (c : KubeAgentConfig)
    (ctx : Context) (k : ComponentType) (hk : k.IsKind) :
    ((UpdateConfigMap env c ctx k [Event.restartKubeAgentCalled k]).1.isOk = false →
        restartKubeAgent env c ctx k []
          = UpdateConfigMap env c ctx k [Event.restartKubeAgentCalled k]
        ∧ (restartKubeAgent env c ctx k []).2.countP Event.isWorkloadCall = 0)
    ∧ ((UpdateConfigMap env c ctx k [Event.restartKubeAgentCalled k]).1.isOk = true →
        (UpdateConfigMap env c ctx k [Event.restartKubeAgentCalled k]).2.countP
            Event.isConfigMapWrite = 1
        ∧ (UpdateConfigMap env c ctx k [Event.restartKubeAgentCalled k]).2.countP
            Event.isWorkloadCall = 0
        ∧ restartKubeAgent env c ctx k []
            = rolloutRestart env c ctx k
                (UpdateConfigMap env c ctx k [Event.restartKubeAgentCalled k]).2
        ∧ ∃ evs, (restartKubeAgent env c ctx k []).2
              = (UpdateConfigMap env c ctx k [Event.restartKubeAgentCalled k]).2 ++ evs
            ∧ evs.countP Event.isConfigMapWrite = 0
            ∧ evs.countP Event.isWorkloadWrite ≤ 1)
    ∧ ((restartKubeAgent env c ctx k []).1.isOk = true →
        ∃ cm w, (restartKubeAgent env c ctx k []).2.filter Event.isWrite = [cm, w]
          ∧ cm.isConfigMapWrite = true ∧ w.isWorkloadWrite = true) := by
  have hr := restartKubeAgent_eq env c ctx k []
  simp only [List.nil_append] at hr
  have hshape := UpdateConfigMap_shape env c ctx k [Event.restartKubeAgentCalled k]
  rcases hshape with ⟨hno, htr⟩ | ⟨hnk, _⟩ | ⟨resp, body, api, yamlData, ex, l, _, _, _, _, _,
      _, _, _, _, _, htr, hres⟩
  · -- `UpdateConfigMap` did not succeed
    rw [hno] at hr
    simp only [Bool.false_eq_true, if_false] at hr
    refine ⟨fun _ => ⟨hr, ?_⟩, fun h => ?_, fun h => ?_⟩
    · rw [hr]
      rcases htr with h | h | h <;> rw [h] <;> rfl
    · rw [hno] at h
      exact Bool.noConfusion h
    · rw [hr, hno] at h
      exact Bool.noConfusion h
  · exact absurd hk hnk
  · rcases hres with hok | herr
    · have hisok : (UpdateConfigMap env c ctx k [Event.restartKubeAgentCalled k]).1.isOk
          = true := by rw [hok]; rfl
      rw [hisok] at hr
      simp only [if_true] at hr
      have hcm : (UpdateConfigMap env c ctx k [Event.restartKubeAgentCalled k]).2.countP
          Event.isConfigMapWrite = 1 := by rw [htr]; rfl
      have hwl : (UpdateConfigMap env c ctx k [Event.restartKubeAgentCalled k]).2.countP
          Event.isWorkloadCall = 0 := by rw [htr]; rfl
      rcases rolloutRestart_cases env c ctx k hk
          (UpdateConfigMap env c ctx k [Event.restartKubeAgentCalled k]).2
        with ⟨r, e, h1, h2, h3⟩ | ⟨r, e, w, h1, h2, h3, h4⟩
      · refine ⟨fun h => ?_, fun _ => ⟨hcm, hwl, hr, [e], ?_, ?_, ?_⟩, fun h => ?_⟩
        · rw [hisok] at h
          exact Bool.noConfusion h
        · rw [hr, h1]
        · simp [(Event.workloadRead_facts e h3).1]
        · simp [(Event.workloadRead_facts e h3).2.1]
        · rw [hr, h1] at h
          rw [h2] at h
          exact Bool.noConfusion h
      · refine ⟨fun h => ?_, fun _ => ⟨hcm, hwl, hr, [e, w], ?_, ?_, ?_⟩, fun _ => ?_⟩
        · rw [hisok] at h
          exact Bool.noConfusion h
        · rw [hr, h1]
        · simp [(Event.workloadRead_facts e h3).1, (Event.workloadWrite_facts w h4).1]
        · simp [(Event.workloadRead_facts e h3).2.1, h4]
        · refine ⟨Event.configMapUpdate ctx c.AgentNamespace
            { ex with Data := some (assocSet "otel-config" yamlData l) }, w, ?_, rfl, h4⟩
          rw [hr, h1, htr]
          have hfe := (Event.workloadRead_facts e h3).2.2.1
          have hfw := (Event.workloadWrite_facts w h4).2.2.1
          have h2nd : [e, w].filter Event.isWrite = [w] := by
            simp [List.filter_cons, hfe, hfw]
          show List.filter Event.isWrite (_ ++ [e, w]) = _
          rw [List.filter_append, h2nd]
          rfl
    · have hisok : (UpdateConfigMap env c ctx k [Event.restartKubeAgentCalled k]).1.isOk
          = false := by
        revert herr
        cases (UpdateConfigMap env c ctx k [Event.restartKubeAgentCalled k]).1 <;>
          simp [Result.isOk, Result.isError]
      rw [hisok] at hr
      simp only [Bool.false_eq_true, if_false] at hr
      refine ⟨fun _ => ⟨hr, ?_⟩, fun h => ?_, fun h => ?_⟩
      · rw [hr, htr]
        rfl
      · rw [hisok] at h
        exact Bool.noConfusion h
      · rw [hr, hisok] at h
        exact Bool.noConfusion h

theorem restartKubeAgent_config_before_rollout_witness :
    ComponentType.DaemonSet.IsKind
    ∧ (UpdateConfigMap healthyScenario.env sampleConfig background ComponentType.DaemonSet
        [Event.restartKubeAgentCalled ComponentType.DaemonSet]).1.isOk = true
    ∧ (restartKubeAgent healthyScenario.env sampleConfig background
        ComponentType.DaemonSet []).1.isOk = true
    ∧ ∃ cm w, (restartKubeAgent healthyScenario.env sampleConfig background
          ComponentType.DaemonSet []).2.filter Event.isWrite = [cm, w]
        ∧ cm.isConfigMapWrite = true ∧ w.isWorkloadWrite = true :=
  ⟨Or.inl rfl, by decide, by decide,
   (restartKubeAgent_config_before_rollout healthyScenario.env sampleConfig background
      ComponentType.DaemonSet (Or.inl rfl)).2.2 (by decide)⟩

/-- C2: whenever `UpdateConfigMap` passes an object to the ConfigMap `Update` call, that
object is the one read by `Get` (the ConfigMap of the kind) with, for every key other
than "otel-config", exactly the value the key had in the object read: no other key is
added, removed or changed, and name, namespace and resource version are kept. -/
theorem UpdateConfigMap_preserves_other_keys (env : Env) (c : KubeAgentConfig)
    (ctx : Context) (k : ComponentType) (ctx1 : Context) (ns : String) (obj : ConfigMap)
    (hmem : Event.configMapUpdate ctx1 ns obj ∈ (UpdateConfigMap env c ctx k []).2) :
    ∃ existing,
      env.getConfigMap [Event.httpGet (yamlRequest c k)] ctx c.AgentNamespace
          (configMapNameOf c k) = .ok existing
      ∧ (∀ key, key ≠ "otel-config" → obj.Data.get key = existing.Data.get key)
      ∧ obj.Name = existing.Name ∧ obj.Namespace = existing.Namespace
      ∧ obj.ResourceVersion = existing.ResourceVersion := by
  rcases UpdateConfigMap_shape env c ctx k [] with ⟨_, htr⟩ | ⟨_, hu⟩ | ⟨resp, body, api,
      yamlData, ex, l, _, _, _, _, _, _, _, _, hget, hdata, htr, _⟩
  · rcases htr with h | h | h <;> rw [h] at hmem <;> simp at hmem
  · rw [hu] at hmem
    simp at hmem
  · rw [htr] at hmem
    simp only [List.nil_append, List.mem_cons, List.mem_singleton, Event.configMapUpdate.injEq,
      List.not_mem_nil, or_false] at hmem
    rcases hmem with h | h | h
    · exact Event.noConfusion h
    · exact Event.noConfusion h
    · obtain ⟨_, _, hobj⟩ := h
      refine ⟨ex, by simpa using hget, ?_, ?_, ?_, ?_⟩
      · intro key hkey
        rw [hobj, hdata]
        exact assocGet_assocSet_ne "otel-config" key yamlData l hkey
      · rw [hobj]
      · rw [hobj]
      · rw [hobj]

theorem UpdateConfigMap_preserves_other_keys_witness :
    Event.configMapUpdate background "mw-agent-ns"
        { Name := "mw-daemonset-otel-config", Namespace := "mw-agent-ns", ResourceVersion := "7"
          Data := some [("extra", "keep"), ("otel-config", "receivers: \x7b\x7d\n")] }
      ∈ (UpdateConfigMap healthyScenario.env sampleConfig background
          ComponentType.DaemonSet []).2
    ∧ ∃ existing,
      healthyScenario.env.getConfigMap
          [Event.httpGet (yamlRequest sampleConfig ComponentType.DaemonSet)] background
          sampleConfig.AgentNamespace (configMapNameOf sampleConfig ComponentType.DaemonSet)
        = .ok existing
      ∧ (∀ key, key ≠ "otel-config" →
          GoMap.get (some [("extra", "keep"), ("otel-config", "receivers: \x7b\x7d\n")]) key
            = existing.Data.get key)
      ∧ "mw-daemonset-otel-config" = existing.Name ∧ "mw-agent-ns" = existing.Namespace
      ∧ "7" = existing.ResourceVersion :=
  ⟨by decide,
   UpdateConfigMap_preserves_other_keys healthyScenario.env sampleConfig background
     ComponentType.DaemonSet background "mw-agent-ns"
     { Name := "mw-daemonset-otel-config", Namespace := "mw-agent-ns", ResourceVersion := "7"
       Data := some [("extra", "keep"), ("otel-config", "receivers: \x7b\x7d\n")] } (by decide)⟩

/-- C5: when `UpdateConfigMap` succeeds for one of the two kinds, it has made exactly one
ConfigMap write; the object written is the one read under the name configured for that
kind (`DaemonsetConfigMap` for the DaemonSet, `DeploymentConfigMap` for the Deployment)
in `AgentNamespace`, and its "otel-config" entry is the YAML serialisation of the blob
of that same kind in the response (`config.daemonset`, resp. `config.deployment`). -/
theorem UpdateConfigMap_writes_kind_blob (env : Env) (c : KubeAgentConfig) (ctx : Context)
    (k : ComponentType) (hk : k.IsKind)
    (hok : (UpdateConfigMap env c ctx k []).1 = .ok ()) :
    ∃ resp body api yamlData existing obj,
      env.httpGet [] (yamlRequest c k) = .ok resp ∧ resp.Body = .ok body
      ∧ env.jsonYAML body = .ok api
      ∧ env.yamlMarshal (blobOf api.Config k) = .ok yamlData
      ∧ env.getConfigMap [Event.httpGet (yamlRequest c k)] ctx c.AgentNamespace
          (configMapNameOf c k) = .ok existing
      ∧ (UpdateConfigMap env c ctx k []).2
          = [Event.httpGet (yamlRequest c k),
             Event.configMapGet ctx c.AgentNamespace (configMapNameOf c k),
             Event.configMapUpdate ctx c.AgentNamespace obj]
      ∧ obj.Name = existing.Name ∧ obj.Namespace = existing.Namespace
      ∧ obj.Data.get "otel-config" = some yamlData
      ∧ (k = ComponentType.DaemonSet →
          configMapNameOf c k = c.DaemonsetConfigMap
          ∧ blobOf api.Config k = api.Config.DaemonSet)
      ∧ (k = ComponentType.Deployment →
          configMapNameOf c k = c.DeploymentConfigMap
          ∧ blobOf api.Config k = api.Config.Deployment) := by
  rcases UpdateConfigMap_shape env c ctx k [] with ⟨hno, _⟩ | ⟨hnk, _⟩ | ⟨resp, body, api,
      yamlData, ex, l, _, hg, _, hb, hj, _, _, hy, hget, hdata, htr, _⟩
  · rw [hok] at hno
    exact Bool.noConfusion hno
  · exact absurd hk hnk
  · refine ⟨resp, body, api, yamlData, ex,
      { ex with Data := some (assocSet "otel-config" yamlData l) },
      hg, hb, hj, hy, by simpa using hget, by simpa using htr, rfl, rfl, ?_, ?_, ?_⟩
    · exact assocGet_assocSet_self "otel-config" yamlData l
    · rintro rfl
      exact ⟨rfl, rfl⟩
    · rintro rfl
      exact ⟨rfl, rfl⟩

theorem UpdateConfigMap_writes_kind_blob_witness :
    ComponentType.Deployment.IsKind
    ∧ (UpdateConfigMap healthyScenario.env sampleConfig background
        ComponentType.Deployment []).1 = .ok ()
    ∧ ∃ resp body api yamlData existing obj,
      healthyScenario.env.httpGet [] (yamlRequest sampleConfig ComponentType.Deployment)
        = .ok resp
      ∧ resp.Body = .ok body
      ∧ healthyScenario.env.jsonYAML body = .ok api
      ∧ healthyScenario.env.yamlMarshal (blobOf api.Config ComponentType.Deployment)
        = .ok yamlData
      ∧ healthyScenario.env.getConfigMap
          [Event.httpGet (yamlRequest sampleConfig ComponentType.Deployment)] background
          sampleConfig.AgentNamespace (configMapNameOf sampleConfig ComponentType.Deployment)
        = .ok existing
      ∧ (UpdateConfigMap healthyScenario.env sampleConfig background
          ComponentType.Deployment []).2
          = [Event.httpGet (yamlRequest sampleConfig ComponentType.Deployment),
             Event.configMapGet background sampleConfig.AgentNamespace
               (configMapNameOf sampleConfig ComponentType.Deployment),
             Event.configMapUpdate background sampleConfig.AgentNamespace obj]
      ∧ obj.Name = existing.Name ∧ obj.Namespace = existing.Namespace
      ∧ obj.Data.get "otel-config" = some yamlData
      ∧ (ComponentType.Deployment = ComponentType.DaemonSet →
          configMapNameOf sampleConfig ComponentType.Deployment
            = sampleConfig.DaemonsetConfigMap
          ∧ blobOf api.Config ComponentType.Deployment = api.Config.DaemonSet)
      ∧ (ComponentType.Deployment = ComponentType.Deployment →
          configMapNameOf sampleConfig ComponentType.Deployment
            = sampleConfig.DeploymentConfigMap
          ∧ blobOf api.Config ComponentType.Deployment = api.Config.Deployment) :=
  ⟨Or.inr rfl, by decide,
   UpdateConfigMap_writes_kind_blob healthyScenario.env sampleConfig background
     ComponentType.Deployment (Or.inr rfl) (by decide)⟩

/-- With a response (status 200, `status` true) whose DaemonSet and Deployment blobs are
both empty, `UpdateConfigMap` returns an error at the request or right after it. -/
theorem UpdateConfigMap_rejects_when_both_empty (env : Env) (c : KubeAgentConfig) (ctx : Context)
    (k : ComponentType) (resp : HttpResponse) (body : String) (api : apiResponseForYAML)
    (hget : ∀ h, env.httpGet h (yamlRequest c k) = .ok resp)
    (hb : resp.Body = .ok body) (hj : env.jsonYAML body = .ok api)
    (hds : api.Config.DaemonSet.len = 0) (hdp : api.Config.Deployment.len = 0) (t : Trace) :
    ∃ e, UpdateConfigMap env c ctx k t = (.error e, t)
      ∨ UpdateConfigMap env c ctx k t = (.error e, t ++ [Event.httpGet (yamlRequest c k)]) := by
  rcases UpdateConfigMap_cases env c ctx k t with ⟨e, h⟩ | ⟨e, h⟩ | h
  · exact ⟨e, Or.inl h⟩
  · exact ⟨e, Or.inr h⟩
  · obtain ⟨resp1, body1, api1, _, hg1, _, hb1, hj1, _, he1, _⟩ := h
    rw [hget t] at hg1
    cases hg1
    rw [hb] at hb1
    cases hb1
    rw [hj] at hj1
    cases hj1
    exact absurd ⟨hds, hdp⟩ he1

/-- C6: for every kind, when the configuration fetch is answered with HTTP 200 and
`status` true but with empty DaemonSet and Deployment blobs, `UpdateConfigMap` returns
an error and issues no ConfigMap read or write, and `restartKubeAgent` returns an error
and issues no ConfigMap read or write and no workload read or update. -/
theorem UpdateConfigMap_empty_blobs (env : Env) (c : KubeAgentConfig) (ctx : Context)
    (k : ComponentType) (resp : HttpResponse) (body : String) (api : apiResponseForYAML)
    (hget : ∀ h, env.httpGet h (yamlRequest c k) = .ok resp)
    (hs : resp.StatusCode = 200) (hb : resp.Body = .ok body)
    (hj : env.jsonYAML body = .ok api) (hst : api.Status = true)
    (hds : api.Config.DaemonSet.len = 0) (hdp : api.Config.Deployment.len = 0) :
    (UpdateConfigMap env c ctx k []).1.isError = true
    ∧ (UpdateConfigMap env c ctx k []).2.countP
        (fun e => e.isConfigMapRead || e.isConfigMapWrite) = 0
    ∧ (restartKubeAgent env c ctx k []).1.isError = true
    ∧ (restartKubeAgent env c ctx k []).2.countP
        (fun e => e.isConfigMapRead || e.isConfigMapWrite) = 0
    ∧ (restartKubeAgent env c ctx k []).2.countP Event.isWorkloadCall = 0 := by
  have _ := hs
  have _ := hst
  obtain ⟨e, h⟩ := UpdateConfigMap_rejects_when_both_empty env c ctx k resp body api hget hb hj hds hdp []
  obtain ⟨e1, h1⟩ := UpdateConfigMap_rejects_when_both_empty env c ctx k resp body api hget hb hj hds hdp
    [Event.restartKubeAgentCalled k]
  have hr := restartKubeAgent_eq env c ctx k []
  simp only [List.nil_append] at hr
  refine ⟨?_, ?_, ?_, ?_, ?_⟩
  · rcases h with h | h <;> rw [h] <;> rfl
  · rcases h with h | h <;> rw [h] <;> rfl
  · rcases h1 with h1 | h1 <;> rw [hr, h1] <;> rfl
  · rcases h1 with h1 | h1 <;> rw [hr, h1] <;> rfl
  · rcases h1 with h1 | h1 <;> rw [hr, h1] <;> rfl

theorem UpdateConfigMap_empty_blobs_witness :
    (UpdateConfigMap emptyBlobsScenario.env sampleConfig background
        ComponentType.DaemonSet []).1.isError = true
    ∧ (UpdateConfigMap emptyBlobsScenario.env sampleConfig background
        ComponentType.DaemonSet []).2.countP
        (fun e => e.isConfigMapRead || e.isConfigMapWrite) = 0
    ∧ (restartKubeAgent emptyBlobsScenario.env sampleConfig background
        ComponentType.DaemonSet []).1.isError = true
    ∧ (restartKubeAgent emptyBlobsScenario.env sampleConfig background
        ComponentType.DaemonSet []).2.countP
        (fun e => e.isConfigMapRead || e.isConfigMapWrite) = 0
    ∧ (restartKubeAgent emptyBlobsScenario.env sampleConfig background
        ComponentType.DaemonSet []).2.countP Event.isWorkloadCall = 0 :=
  UpdateConfigMap_empty_blobs emptyBlobsScenario.env sampleConfig background
    ComponentType.DaemonSet
    { StatusCode := 200, Body := .ok "api/v1/agent/ingestion-rules/k1" }
    "api/v1/agent/ingestion-rules/k1"
    { Status := true, Config := emptyBlobsScenario.config, Message := "" }
    (fun _ => rfl) rfl rfl rfl rfl rfl rfl

/-- C7 fails on the code: asked for the Deployment, with a response that carries a blob
for the DaemonSet only, `UpdateConfigMap` succeeds and writes the serialisation of the
empty Deployment blob into "otel-config" of the Deployment ConfigMap. -/
theorem UpdateConfigMap_writes_empty_blob :
    (blobOf daemonsetBlobOnlyScenario.config ComponentType.Deployment).len = 0
    ∧ UpdateConfigMap daemonsetBlobOnlyScenario.env sampleConfig background
        ComponentType.Deployment []
      = (.ok (),
         [Event.httpGet (yamlRequest sampleConfig ComponentType.Deployment),
          Event.configMapGet background "mw-agent-ns" "mw-deployment-otel-config",
          Event.configMapUpdate background "mw-agent-ns"
            { Name := "mw-deployment-otel-config", Namespace := "mw-agent-ns"
              ResourceVersion := "7"
              Data := some [("extra", "keep"),
                ("otel-config", renderYAML (blobOf daemonsetBlobOnlyScenario.config
                  ComponentType.Deployment))] }]) := by
  decide

/-! ## Theorems: one poll cycle -/

theorem invocations_append (k : ComponentType) (t evs : Trace) :
    invocations k (t ++ evs) = invocations k t + invocations k evs := by
  simp [invocations, List.countP_append]

/-- The run of `UpdateConfigMap` does not enter any pipeline. -/
theorem UpdateConfigMap_invocations (env : Env) (c : KubeAgentConfig) (ctx : Context)
    (k k1 : ComponentType) (t : Trace) :
    invocations k1 (UpdateConfigMap env c ctx k t).2 = invocations k1 t := by
  rcases UpdateConfigMap_shape env c ctx k t with ⟨_, htr⟩ | ⟨_, hu⟩ | ⟨_, _, _, _, _, _, _, _,
      _, _, _, _, _, _, _, _, htr, _⟩
  · rcases htr with h | h | h <;> rw [h]
    · rw [invocations_append]; rfl
    · rw [invocations_append]; rfl
  · rw [hu, invocations_append]; rfl
  · rw [htr, invocations_append]; rfl

theorem Event.workloadCall_not_pipeline (e : Event) (k : ComponentType)
    (h : e.isWorkloadRead = true ∨ e.isWorkloadWrite = true) : e.isPipelineOf k = false := by
  cases e <;> simp_all [Event.isWorkloadRead, Event.isWorkloadWrite, Event.isPipelineOf]

/-- The run of `rolloutRestart` does not enter any pipeline. -/
theorem rolloutRestart_invocations (env : Env) (c : KubeAgentConfig) (ctx : Context)
    (k k1 : ComponentType) (hk : k.IsKind) (t : Trace) :
    invocations k1 (rolloutRestart env c ctx k t).2 = invocations k1 t := by
  rcases rolloutRestart_cases env c ctx k hk t with ⟨r, e, h1, _, h3⟩ | ⟨r, e, w, h1, _, h3, h4⟩
  · rw [h1, invocations_append]
    simp [invocations, Event.workloadCall_not_pipeline e k1 (Or.inl h3)]
  · rw [h1, invocations_append]
    simp [invocations, Event.workloadCall_not_pipeline e k1 (Or.inl h3),
      Event.workloadCall_not_pipeline w k1 (Or.inr h4)]

/-- A run of `restartKubeAgent` enters the pipeline of its kind once, and no other. -/
theorem restartKubeAgent_invocations (env : Env) (c : KubeAgentConfig) (ctx : Context)
    (k k1 : ComponentType) (hk : k.IsKind) (t : Trace) :
    invocations k1 (restartKubeAgent env c ctx k t).2
      = invocations k1 t + (if k = k1 then 1 else 0) := by
  have hbase : invocations k1 (t ++ [Event.restartKubeAgentCalled k])
      = invocations k1 t + (if k = k1 then 1 else 0) := by
    rw [invocations_append]
    by_cases h : k = k1 <;> simp [invocations, Event.isPipelineOf, h]
  rw [restartKubeAgent_eq]
  split
  · rw [rolloutRestart_invocations env c ctx k k1 hk, UpdateConfigMap_invocations, hbase]
  · rw [UpdateConfigMap_invocations, hbase]

/-- The trace of the flag-driven part of `callRestartStatusAPI`: the DaemonSet pipeline
runs if its flag is set; the Deployment pipeline runs if its flag is set and the
DaemonSet pipeline either did not run or returned no error. -/
theorem restartFlagged_trace (env : Env) (c : KubeAgentConfig) (ctx : Context)
    (api : apiResponseForRestart) (t : Trace) :
    (restartFlagged env c ctx api t).2
      = if api.Rollout.Daemonset then
          if (restartKubeAgent env c ctx ComponentType.DaemonSet t).1.isOk
              ∧ api.Rollout.Deployment then
            (restartKubeAgent env c ctx ComponentType.Deployment
              (restartKubeAgent env c ctx ComponentType.DaemonSet t).2).2
          else (restartKubeAgent env c ctx ComponentType.DaemonSet t).2
        else if api.Rollout.Deployment then
          (restartKubeAgent env c ctx ComponentType.Deployment t).2
        else t := by
  unfold restartFlagged
  cases hds : api.Rollout.Daemonset <;> cases hdp : api.Rollout.Deployment
  · simp
  · rcases hr : restartKubeAgent env c ctx ComponentType.Deployment t with ⟨r, t1⟩
    cases r <;> simp [hr]
  · rcases hr : restartKubeAgent env c ctx ComponentType.DaemonSet t with ⟨r, t1⟩
    cases r <;> simp [hr, Result.isOk]
  · rcases hr : restartKubeAgent env c ctx ComponentType.DaemonSet t with ⟨r, t1⟩
    cases r
    · rcases hr2 : restartKubeAgent env c ctx ComponentType.Deployment t1 with ⟨r2, t2⟩
      cases r2 <;> simp [hr, hr2, Result.isOk]
    · simp [hr, Result.isOk]
    · simp [hr, Result.isOk]

/-- With a decoded response, `callRestartStatusAPI` continues with the flags. -/
theorem callRestartStatusAPI_decoded (env : Env) (c : KubeAgentConfig) (ctx : Context)
    (resp : HttpResponse) (body : String) (api : apiResponseForRestart) (t : Trace)
    (hp : env.urlParse c.APIURLForConfigCheck = none)
    (hg : env.httpGet t (restartRequest c) = .ok resp) (hs : resp.StatusCode = 200)
    (hb : resp.Body = .ok body) (hj : env.jsonRestart body = .ok api) :
    callRestartStatusAPI env c ctx t
      = restartFlagged env c ctx api (t ++ [Event.httpGet (restartRequest c)]) := by
  simp [callRestartStatusAPI, hp, hg, hs, hb, hj]

/-- C3: for every decoded restart-status response, `callRestartStatusAPI` enters the
pipeline of each kind at most once, never enters the pipeline of a kind whose rollout
flag is false, and enters the DaemonSet pipeline exactly once when its flag is true; in
particular with `rollout.daemonset` true and `rollout.deployment` false the DaemonSet
pipeline is entered exactly once and the Deployment pipeline never. -/
theorem callRestartStatusAPI_invocations (env : Env) (c : KubeAgentConfig) (ctx : Context)
    (resp : HttpResponse) (body : String) (api : apiResponseForRestart)
    (hp : env.urlParse c.APIURLForConfigCheck = none)
    (hg : env.httpGet [] (restartRequest c) = .ok resp) (hs : resp.StatusCode = 200)
    (hb : resp.Body = .ok body) (hj : env.jsonRestart body = .ok api) :
    (∀ k, k.IsKind → invocations k (callRestartStatusAPI env c ctx []).2 ≤ 1)
    ∧ (api.Rollout.Daemonset = false →
        invocations ComponentType.DaemonSet (callRestartStatusAPI env c ctx []).2 = 0)
    ∧ (api.Rollout.Deployment = false →
        invocations ComponentType.Deployment (callRestartStatusAPI env c ctx []).2 = 0)
    ∧ (api.Rollout.Daemonset = true →
        invocations ComponentType.DaemonSet (callRestartStatusAPI env c ctx []).2 = 1)
    ∧ (api.Rollout.Daemonset = true → api.Rollout.Deployment = false →
        invocations ComponentType.DaemonSet (callRestartStatusAPI env c ctx []).2 = 1
        ∧ invocations ComponentType.Deployment (callRestartStatusAPI env c ctx []).2 = 0) := by
  have hds : ComponentType.DaemonSet.IsKind := Or.inl rfl
  have hdp : ComponentType.Deployment.IsKind := Or.inr rfl
  have hne : ComponentType.Deployment ≠ ComponentType.DaemonSet := by decide
  have hne2 : ComponentType.DaemonSet ≠ ComponentType.Deployment := by decide
  have h0 : ∀ k, invocations k ([] ++ [Event.httpGet (restartRequest c)]) = 0 := fun _ => rfl
  have hcount : ∀ k1,
      invocations k1 (callRestartStatusAPI env c ctx []).2
        = if api.Rollout.Daemonset then
            if (restartKubeAgent env c ctx ComponentType.DaemonSet
                  ([] ++ [Event.httpGet (restartRequest c)])).1.isOk
                ∧ api.Rollout.Deployment then
              (if ComponentType.DaemonSet = k1 then 1 else 0)
                + (if ComponentType.Deployment = k1 then 1 else 0)
            else (if ComponentType.DaemonSet = k1 then 1 else 0)
          else if api.Rollout.Deployment then (if ComponentType.Deployment = k1 then 1 else 0)
          else 0 := by
    intro k1
    rw [callRestartStatusAPI_decoded env c ctx resp body api [] hp hg hs hb hj,
      restartFlagged_trace]
    split
    · split
      · rw [restartKubeAgent_invocations env c ctx _ k1 hdp,
          restartKubeAgent_invocations env c ctx _ k1 hds, h0]
        omega
      · rw [restartKubeAgent_invocations env c ctx _ k1 hds, h0]
        omega
    · split
      · rw [restartKubeAgent_invocations env c ctx _ k1 hdp, h0]
        omega
      · exact h0 k1
  refine ⟨?_, ?_, ?_, ?_, ?_⟩
  · intro k hk
    rw [hcount k]
    rcases hk with rfl | rfl
    · simp only [hne, if_true, if_false]
      split_ifs <;> omega
    · simp only [hne2, if_true, if_false]
      split_ifs <;> omega
  · intro hf
    rw [hcount, hf]
    simp [hne]
  · intro hf
    rw [hcount, hf]
    simp [hne2]
  · intro hf
    rw [hcount, hf]
    simp [hne]
  · intro hf1 hf2
    rw [hcount, hcount, hf1, hf2]
    simp [hne2]

theorem callRestartStatusAPI_invocations_witness :
    (∀ k, k.IsKind →
        invocations k (callRestartStatusAPI daemonsetOnlyScenario.env sampleConfig
          background []).2 ≤ 1)
    ∧ invocations ComponentType.DaemonSet
        (callRestartStatusAPI daemonsetOnlyScenario.env sampleConfig background []).2 = 1
    ∧ invocations ComponentType.Deployment
        (callRestartStatusAPI daemonsetOnlyScenario.env sampleConfig background []).2 = 0 :=
  ⟨(callRestartStatusAPI_invocations daemonsetOnlyScenario.env sampleConfig background
      { StatusCode := 200, Body := .ok "api/v1/agent/restart-status/k1" }
      "api/v1/agent/restart-status/k1" daemonsetOnlyScenario.restart rfl rfl rfl rfl rfl).1,
   (callRestartStatusAPI_invocations daemonsetOnlyScenario.env sampleConfig background
      { StatusCode := 200, Body := .ok "api/v1/agent/restart-status/k1" }
      "api/v1/agent/restart-status/k1" daemonsetOnlyScenario.restart rfl rfl rfl rfl
      rfl).2.2.2.2 rfl rfl⟩

/-- C4 fails on the code: with both rollout flags set and the ConfigMap of the DaemonSet
missing, `callRestartStatusAPI` returns the error of the DaemonSet pipeline at once; the
Deployment pipeline is not entered and no Deployment object is read or written. -/
theorem callRestartStatusAPI_daemonset_failure_skips_deployment :
    daemonsetConfigMapMissingScenario.restart.Rollout.Daemonset = true
    ∧ daemonsetConfigMapMissingScenario.restart.Rollout.Deployment = true
    ∧ (callRestartStatusAPI daemonsetConfigMapMissingScenario.env sampleConfig
        background []).1.isError = true
    ∧ invocations ComponentType.DaemonSet
        (callRestartStatusAPI daemonsetConfigMapMissingScenario.env sampleConfig
          background []).2 = 1
    ∧ invocations ComponentType.Deployment
        (callRestartStatusAPI daemonsetConfigMapMissingScenario.env sampleConfig
          background []).2 = 0
    ∧ (callRestartStatusAPI daemonsetConfigMapMissingScenario.env sampleConfig
        background []).2
      = [Event.httpGet (restartRequest sampleConfig),
         Event.restartKubeAgentCalled ComponentType.DaemonSet,
         Event.httpGet (yamlRequest sampleConfig ComponentType.DaemonSet),
         Event.configMapGet background "mw-agent-ns" "mw-daemonset-otel-config"] := by
  decide


/-! ## Theorems: decimal rendering -/

theorem digitValue_digitChar (d : Nat) (h : d < 10) :
    digitValue (Nat.digitChar d) = some d := by
  interval_cases d <;> decide

theorem digitChar_ne_minus (d : Nat) (h : d < 10) : Nat.digitChar d ≠ '-' := by
  interval_cases d <;> decide

theorem parseDigits_append (acc : Nat) (l : List Char) (ch : Char) :
    parseDigits acc (l ++ [ch])
      = (parseDigits acc l).bind (fun v => (digitValue ch).map (fun d => v * 10 + d)) := by
  induction l generalizing acc with
  | nil =>
    simp only [List.nil_append, parseDigits, Option.some_bind]
    cases digitValue ch <;> rfl
  | cons c cs ih =>
    simp only [List.cons_append, parseDigits]
    cases digitValue c with
    | none => rfl
    | some d => exact ih _

/-- The digits produced for a number are in front of the given tail, are non-empty,
do not start with "-", and read back as the number. -/
theorem toDigitsCore_spec (fuel n : Nat) (ds : List Char) (h : n < fuel) :
    ∃ pre, Nat.toDigitsCore 10 fuel n ds = pre ++ ds ∧ parseDigits 0 pre = some n
      ∧ ∃ c cs, pre = c :: cs ∧ c ≠ '-' := by
  induction fuel generalizing n ds with
  | zero => omega
  | succ fuel ih =>
    unfold Nat.toDigitsCore
    have hd : n % 10 < 10 := Nat.mod_lt _ (by decide)
    by_cases h0 : n / 10 = 0
    · simp only [h0, if_true]
      refine ⟨[Nat.digitChar (n % 10)], rfl, ?_, _, _, rfl, digitChar_ne_minus _ hd⟩
      simp only [parseDigits, digitValue_digitChar _ hd]
      have : n % 10 = n := Nat.mod_eq_of_lt (by omega)
      simp [this]
    · simp only [h0, if_false]
      have hlt : n / 10 < fuel := by omega
      obtain ⟨pre, hpre, hparse, c, cs, hc, hne⟩ := ih (n / 10) (Nat.digitChar (n % 10) :: ds) hlt
      refine ⟨pre ++ [Nat.digitChar (n % 10)], ?_, ?_, c, cs ++ [Nat.digitChar (n % 10)], ?_, hne⟩
      · rw [hpre]
        simp
      · rw [parseDigits_append, hparse, digitValue_digitChar _ hd]
        simp only [Option.some_bind, Option.map_some']
        congr 1
        omega
      · rw [hc]
        rfl

theorem toString_nat_data (n : Nat) :
    ∃ c cs, (toString n).data = c :: cs ∧ c ≠ '-' ∧ parseDigits 0 (c :: cs) = some n := by
  obtain ⟨pre, hpre, hparse, c, cs, hc, hne⟩ := toDigitsCore_spec (n + 1) n [] (by omega)
  refine ⟨c, cs, ?_, hne, ?_⟩
  · show (Nat.repr n).data = _
    simp only [Nat.repr, Nat.toDigits, List.asString]
    rw [hpre, hc]
    simp
  · rw [← hc]
    exact hparse

/-- The decimal rendering of an integer reads back as that integer. -/
theorem parseDecimal_toString (n : Int) : parseDecimal (toString n) = some n := by
  cases n with
  | ofNat m =>
    obtain ⟨c, cs, hdata, hne, hparse⟩ := toString_nat_data m
    show parseDecimal (toString m) = _
    unfold parseDecimal
    rw [hdata]
    split
    · rename_i heq; exact absurd heq (by simp)
    · rename_i heq; simp at heq; exact absurd heq.1 hne
    · rename_i heq; simp at heq; exact absurd heq.1 hne
    · rw [hparse]; rfl
  | negSucc m =>
    obtain ⟨c, cs, hdata, hne, hparse⟩ := toString_nat_data (m + 1)
    show parseDecimal ("-" ++ toString (m + 1)) = _
    unfold parseDecimal
    have hd : ("-" ++ toString (m + 1)).data = '-' :: c :: cs := by
      rw [String.data_append, hdata]
      rfl
    rw [hd]
    simp only [hparse, Option.map_some']
    rfl

theorem toString_int_injective (a b : Int) (h : toString a = toString b) : a = b := by
  have ha := parseDecimal_toString a
  rw [h, parseDecimal_toString b] at ha
  exact (Option.some.inj ha).symm

/-! ## Theorems: the rollout trigger -/

/-- A successful `rolloutRestart` for a declared kind reads the workload and writes it
back once, with the "timestamp" label set to the decimal rendering of the clock as read
after the workload was fetched. -/
theorem rolloutRestart_ok (env : Env) (c : KubeAgentConfig) (ctx : Context)
    (k : ComponentType) (hk : k.IsKind) (t : Trace)
    (hok : (rolloutRestart env c ctx k t).1 = .ok ()) :
    ∃ rd wr, (rolloutRestart env c ctx k t).2 = t ++ [rd, wr]
      ∧ rd.isWorkloadRead = true ∧ wr.isWorkloadWriteOf k = true
      ∧ wr.timestampLabel = some (toString (env.now (t ++ [rd]))) := by
  rcases hk with rfl | rfl
  · cases hg : env.getDaemonSet t ctx c.AgentNamespace c.Daemonset with
    | error e => simp [rolloutRestart, hg] at hok
    | ok ds =>
      cases hd : ds.TemplateLabels with
      | none => simp [rolloutRestart, hg, GoMap.set, hd] at hok
      | some l =>
        cases hu : env.updateDaemonSet
            (t ++ [Event.daemonSetGet ctx c.AgentNamespace c.Daemonset]) ctx c.AgentNamespace
            { ds with TemplateLabels := some (assocSet Timestamp
                (toString (env.now (t ++ [Event.daemonSetGet ctx c.AgentNamespace c.Daemonset])))
                l) } with
        | error e => simp [rolloutRestart, hg, GoMap.set, hd, hu] at hok
        | ok o =>
          refine ⟨Event.daemonSetGet ctx c.AgentNamespace c.Daemonset,
            Event.daemonSetUpdate ctx c.AgentNamespace
              { ds with TemplateLabels := some (assocSet Timestamp
                (toString (env.now (t ++ [Event.daemonSetGet ctx c.AgentNamespace c.Daemonset])))
                l) }, ?_, rfl, ?_, ?_⟩
          · simp [rolloutRestart, hg, GoMap.set, hd, hu]
          · simp [Event.isWorkloadWriteOf]
          · simp only [Event.timestampLabel, GoMap.get]
            exact assocGet_assocSet_self _ _ _
  · have hne : ComponentType.Deployment ≠ ComponentType.DaemonSet := by decide
    cases hg : env.getDeployment t ctx c.AgentNamespace c.Deployment with
    | error e => simp [rolloutRestart, hne, hg] at hok
    | ok ds =>
      cases hd : ds.TemplateLabels with
      | none => simp [rolloutRestart, hne, hg, GoMap.set, hd] at hok
      | some l =>
        cases hu : env.updateDeployment
            (t ++ [Event.deploymentGet ctx c.AgentNamespace c.Deployment]) ctx c.AgentNamespace
            { ds with TemplateLabels := some (assocSet Timestamp
                (toString (env.now (t ++ [Event.deploymentGet ctx c.AgentNamespace c.Deployment])))
                l) } with
        | error e => simp [rolloutRestart, hne, hg, GoMap.set, hd, hu] at hok
        | ok o =>
          refine ⟨Event.deploymentGet ctx c.AgentNamespace c.Deployment,
            Event.deploymentUpdate ctx c.AgentNamespace
              { ds with TemplateLabels := some (assocSet Timestamp
                (toString (env.now (t ++ [Event.deploymentGet ctx c.AgentNamespace c.Deployment])))
                l) }, ?_, rfl, ?_, ?_⟩
          · simp [rolloutRestart, hne, hg, GoMap.set, hd, hu]
          · simp [Event.isWorkloadWriteOf]
          · simp only [Event.timestampLabel, GoMap.get]
            exact assocGet_assocSet_self _ _ _

theorem Event.workloadRead_no_label (e : Event) (h : e.isWorkloadRead = true) :
    e.timestampLabel = none ∧ ∀ k, e.isWorkloadWriteOf k = false := by
  cases e <;> simp_all [Event.isWorkloadRead, Event.timestampLabel, Event.isWorkloadWriteOf]

/-- C11: a successful `rolloutRestart` makes exactly one write, to the workload of the
given kind, and the "timestamp" label of the pod template it writes is the decimal
rendering of the current Unix time in seconds.  So for two successful triggers at Unix
times `u1 < u2` the two labels read back as the decimal integers `u1` and `u2`, the
second strictly greater than the first, and the two label strings differ. -/
theorem rolloutRestart_timestamp_increases (env1 env2 : Env) (c1 c2 : KubeAgentConfig)
    (ctx1 ctx2 : Context) (k : ComponentType) (u1 u2 : Int) (hk : k.IsKind)
    (hnow1 : ∀ h, env1.now h = u1) (hnow2 : ∀ h, env2.now h = u2)
    (hok1 : (rolloutRestart env1 c1 ctx1 k []).1 = .ok ())
    (hok2 : (rolloutRestart env2 c2 ctx2 k []).1 = .ok ())
    (hlt : u1 < u2) :
    ∃ s1 s2 n1 n2,
      writtenTimestamps (rolloutRestart env1 c1 ctx1 k []).2 = [s1]
      ∧ writtenTimestamps (rolloutRestart env2 c2 ctx2 k []).2 = [s2]
      ∧ (rolloutRestart env1 c1 ctx1 k []).2.countP (Event.isWorkloadWriteOf k) = 1
      ∧ (rolloutRestart env2 c2 ctx2 k []).2.countP (Event.isWorkloadWriteOf k) = 1
      ∧ s1 = toString u1 ∧ s2 = toString u2
      ∧ parseDecimal s1 = some n1 ∧ parseDecimal s2 = some n2
      ∧ n1 < n2 ∧ s1 ≠ s2 := by
  obtain ⟨rd1, wr1, htr1, hrd1, hwr1, hl1⟩ := rolloutRestart_ok env1 c1 ctx1 k hk [] hok1
  obtain ⟨rd2, wr2, htr2, hrd2, hwr2, hl2⟩ := rolloutRestart_ok env2 c2 ctx2 k hk [] hok2
  rw [hnow1] at hl1
  rw [hnow2] at hl2
  have hn1 := Event.workloadRead_no_label rd1 hrd1
  have hn2 := Event.workloadRead_no_label rd2 hrd2
  refine ⟨toString u1, toString u2, u1, u2, ?_, ?_, ?_, ?_, rfl, rfl,
    parseDecimal_toString u1, parseDecimal_toString u2, hlt, ?_⟩
  · rw [htr1]
    simp [writtenTimestamps, List.filterMap_cons, hn1.1, hl1]
  · rw [htr2]
    simp [writtenTimestamps, List.filterMap_cons, hn2.1, hl2]
  · rw [htr1]
    simp [List.countP_cons, hn1.2 k, hwr1]
  · rw [htr2]
    simp [List.countP_cons, hn2.2 k, hwr2]
  · intro heq
    have := toString_int_injective u1 u2 heq
    omega

theorem rolloutRestart_timestamp_increases_witness :
    ComponentType.DaemonSet.IsKind
    ∧ (rolloutRestart healthyScenario.env sampleConfig background
        ComponentType.DaemonSet []).1 = .ok ()
    ∧ (rolloutRestart laterScenario.env sampleConfig background
        ComponentType.DaemonSet []).1 = .ok ()
    ∧ ∃ s1 s2 n1 n2,
      writtenTimestamps (rolloutRestart healthyScenario.env sampleConfig background
          ComponentType.DaemonSet []).2 = [s1]
      ∧ writtenTimestamps (rolloutRestart laterScenario.env sampleConfig background
          ComponentType.DaemonSet []).2 = [s2]
      ∧ (rolloutRestart healthyScenario.env sampleConfig background
          ComponentType.DaemonSet []).2.countP
            (Event.isWorkloadWriteOf ComponentType.DaemonSet) = 1
      ∧ (rolloutRestart laterScenario.env sampleConfig background
          ComponentType.DaemonSet []).2.countP
            (Event.isWorkloadWriteOf ComponentType.DaemonSet) = 1
      ∧ s1 = toString (1700000000 : Int) ∧ s2 = toString (1700000001 : Int)
      ∧ parseDecimal s1 = some n1 ∧ parseDecimal s2 = some n2
      ∧ n1 < n2 ∧ s1 ≠ s2 :=
  ⟨Or.inl rfl, by decide, by decide,
   rolloutRestart_timestamp_increases healthyScenario.env laterScenario.env sampleConfig
     sampleConfig background background ComponentType.DaemonSet 1700000000 1700000001
     (Or.inl rfl) (fun _ => rfl) (fun _ => rfl) (by decide) (by decide) (by decide)⟩

/-- C17 fails on the code: a ConfigMap that exists without data has a nil `Data` map,
and the assignment of "otel-config" in `UpdateConfigMap` panics after the ConfigMap was
read; likewise the assignment of the "timestamp" label in `rolloutRestart` panics when
the pod template of the workload has a nil `Labels` map.  Neither call returns. -/
theorem UpdateConfigMap_panics_on_nil_data :
    UpdateConfigMap noDataScenario.env sampleConfig background ComponentType.DaemonSet []
      = (.panicked "assignment to entry in nil map",
         [Event.httpGet (yamlRequest sampleConfig ComponentType.DaemonSet),
          Event.configMapGet background "mw-agent-ns" "mw-daemonset-otel-config"])
    ∧ UpdateConfigMap noDataScenario.env sampleConfig background ComponentType.Deployment []
      = (.panicked "assignment to entry in nil map",
         [Event.httpGet (yamlRequest sampleConfig ComponentType.Deployment),
          Event.configMapGet background "mw-agent-ns" "mw-deployment-otel-config"])
    ∧ rolloutRestart noLabelsScenario.env sampleConfig background ComponentType.DaemonSet []
      = (.panicked "assignment to entry in nil map",
         [Event.daemonSetGet background "mw-agent-ns" "mw-kube-agent"])
    ∧ rolloutRestart noLabelsScenario.env sampleConfig background ComponentType.Deployment []
      = (.panicked "assignment to entry in nil map",
         [Event.deploymentGet background "mw-agent-ns" "mw-kube-agent"]) := by
  decide


/-! ## Theorems: backend failures -/

/-- C12: for both backend calls, a response whose HTTP status is not 200 (hence every
non-2xx status), or whose body cannot be read and decoded as JSON for the expected
response type, makes the call return a non-nil error, and no ConfigMap and no workload
is read or written. -/
theorem backend_failure_no_cluster_call (env : Env) (c : KubeAgentConfig) (ctx : Context)
    (k : ComponentType) :
    (∀ resp, env.httpGet [] (restartRequest c) = .ok resp →
        (resp.StatusCode ≠ 200 ∨ resp.decodes env.jsonRestart = false) →
        (callRestartStatusAPI env c ctx []).1.isError = true
        ∧ (callRestartStatusAPI env c ctx []).2.countP Event.isClusterCall = 0)
    ∧ (∀ resp, env.httpGet [] (yamlRequest c k) = .ok resp →
        (resp.StatusCode ≠ 200 ∨ resp.decodes env.jsonYAML = false) →
        (UpdateConfigMap env c ctx k []).1.isError = true
        ∧ (UpdateConfigMap env c ctx k []).2.countP Event.isClusterCall = 0) := by
  constructor
  · intro resp hg hbad
    cases hp : env.urlParse c.APIURLForConfigCheck with
    | some e => simp [callRestartStatusAPI, hp, Result.isError]
    | none =>
      by_cases hs : resp.StatusCode = 200
      · have hdec : resp.decodes env.jsonRestart = false := hbad.resolve_left (fun h => h hs)
        cases hb : resp.Body with
        | error e =>
          simp [callRestartStatusAPI, hp, hg, hs, hb, Result.isError, Event.isClusterCall,
            Event.isConfigMapRead, Event.isConfigMapWrite, Event.isWorkloadRead,
            Event.isWorkloadWrite]
        | ok body =>
          cases hj : env.jsonRestart body with
          | error e =>
            simp [callRestartStatusAPI, hp, hg, hs, hb, hj, Result.isError,
              Event.isClusterCall, Event.isConfigMapRead, Event.isConfigMapWrite,
              Event.isWorkloadRead, Event.isWorkloadWrite]
          | ok api => simp [HttpResponse.decodes, hb, hj] at hdec
      · simp [callRestartStatusAPI, hp, hg, hs, Result.isError, Event.isClusterCall,
          Event.isConfigMapRead, Event.isConfigMapWrite, Event.isWorkloadRead,
          Event.isWorkloadWrite]
  · intro resp hg hbad
    cases hp : env.urlParse c.APIURLForConfigCheck with
    | some e => simp [UpdateConfigMap, hp, Result.isError]
    | none =>
      by_cases hs : resp.StatusCode = 200
      · have hdec : resp.decodes env.jsonYAML = false := hbad.resolve_left (fun h => h hs)
        cases hb : resp.Body with
        | error e =>
          simp [UpdateConfigMap, hp, hg, hs, hb, Result.isError, Event.isClusterCall,
            Event.isConfigMapRead, Event.isConfigMapWrite, Event.isWorkloadRead,
            Event.isWorkloadWrite]
        | ok body =>
          cases hj : env.jsonYAML body with
          | error e =>
            simp [UpdateConfigMap, hp, hg, hs, hb, hj, Result.isError,
              Event.isClusterCall, Event.isConfigMapRead, Event.isConfigMapWrite,
              Event.isWorkloadRead, Event.isWorkloadWrite]
          | ok api => simp [HttpResponse.decodes, hb, hj] at hdec
      · simp [UpdateConfigMap, hp, hg, hs, Result.isError, Event.isClusterCall,
          Event.isConfigMapRead, Event.isConfigMapWrite, Event.isWorkloadRead,
          Event.isWorkloadWrite]

theorem backend_failure_no_cluster_call_witness :
    ((callRestartStatusAPI (healthyScenario.envWithStatus 503) sampleConfig
        background []).1.isError = true
      ∧ (callRestartStatusAPI (healthyScenario.envWithStatus 503) sampleConfig
        background []).2.countP Event.isClusterCall = 0)
    ∧ ((UpdateConfigMap healthyScenario.envUndecodable sampleConfig background
        ComponentType.DaemonSet []).1.isError = true
      ∧ (UpdateConfigMap healthyScenario.envUndecodable sampleConfig background
        ComponentType.DaemonSet []).2.countP Event.isClusterCall = 0) :=
  ⟨(backend_failure_no_cluster_call (healthyScenario.envWithStatus 503) sampleConfig
      background ComponentType.DaemonSet).1
      { StatusCode := 503, Body := .ok "api/v1/agent/restart-status/k1" } rfl
      (Or.inl (by decide)),
   (backend_failure_no_cluster_call healthyScenario.envUndecodable sampleConfig
      background ComponentType.DaemonSet).2
      { StatusCode := 200, Body := .ok "api/v1/agent/ingestion-rules/k1" } rfl
      (Or.inr rfl)⟩

/-! ## Theorems: the commands -/

/-- C14: when the poll interval given by the flags is "0", the command `update` never
calls `ListenForConfigChanges`: whatever the other flags, the environment variables and
the environment, it issues no call at all, hence no restart-status check. -/
theorem update_interval_zero_no_check (env : Env) (p : Process)
    (hcmd : p.command = Command.update) (hzero : p.flags.ConfigCheckInterval = "0") :
    (main env p []).2 = []
    ∧ (main env p []).2.countP Event.isRestartStatusCheck = 0
    ∧ ∀ (kac : KubeAgentConfig) (ctx : Context) (t : Trace),
        (updateAction env kac p.flags ctx t).2 = t := by
  have haction : ∀ (kac : KubeAgentConfig) (ctx : Context) (t : Trace),
      (updateAction env kac p.flags ctx t).2 = t := by
    intro kac ctx t
    unfold updateAction
    by_cases hu : p.flags.APIURLForConfigCheck = ""
    · rcases hd : GetAPIURLForConfigCheck p.flags.Target with ⟨u, err⟩
      cases err with
      | some e => simp [hu, hd]
      | none => simp [hu, hd, hzero]
    · simp [hu, hzero]
  have hmain : (main env p []).2 = [] := by
    unfold main
    cases hs : p.setClientSetError with
    | some e => rfl
    | none =>
      simp only [hcmd]
      exact haction _ _ _
  refine ⟨hmain, ?_, haction⟩
  rw [hmain]
  rfl

theorem update_interval_zero_no_check_witness :
    (main healthyScenario.env
        { sampleProcess with
          flags := { sampleProcess.flags with ConfigCheckInterval := "0" } } []).2 = []
    ∧ (main healthyScenario.env sampleProcess []).2 ≠ [] :=
  ⟨(update_interval_zero_no_check healthyScenario.env
      { sampleProcess with
        flags := { sampleProcess.flags with ConfigCheckInterval := "0" } } rfl rfl).1,
   by decide⟩

/-- C16 fails on the code: `main` builds `KubeAgentConfig` from the zero value of `cfg`
before the flags are parsed, so the agent holds an empty API key and an empty URL
whatever the flags are.  With target "https://app.us1.example.com" and API key "k1" the
command `update` derives the base URL from the target, and then issues the
restart-status check with the empty URL and the empty key. -/
theorem update_request_ignores_flags :
    (∀ p : Process, (mainKubeAgentConfig p).APIKey = ""
        ∧ (mainKubeAgentConfig p).APIURLForConfigCheck = "")
    ∧ sampleProcess.flags.APIKey = "k1"
    ∧ GetAPIURLForConfigCheck sampleProcess.flags.Target
        = ("https://app.us1.example.com", none)
    ∧ (main healthyScenario.env sampleProcess []).2.head?
        = some (Event.httpGet
            { rawurl := ""
              elems := ["api/v1/agent/restart-status", ""]
              params := [("platform", "k8s"), ("host_id", "c1"), ("cluster", "c1"),
                         ("agent_version", "0.0.1")] })
    ∧ (main healthyScenario.env sampleProcess []).2.head?
        ≠ some (Event.httpGet
            { rawurl := "https://app.us1.example.com"
              elems := ["api/v1/agent/restart-status", "k1"]
              params := [("platform", "k8s"), ("host_id", "c1"), ("cluster", "c1"),
                         ("agent_version", "0.0.1")] }) := by
  refine ⟨fun p => ⟨rfl, rfl⟩, ?_, ?_, ?_, ?_⟩ <;> decide


/-- What a run of `UpdateConfigMap` adds to the trace: no restart-status check, no
workload call, no entry into a pipeline, at most one configuration fetch and at most
one ConfigMap write; exactly one of each when it succeeds for a declared kind. -/
theorem UpdateConfigMap_added (env : Env) (c : KubeAgentConfig) (ctx : Context)
    (k : ComponentType) (t : Trace) :
    ∃ evs, (UpdateConfigMap env c ctx k t).2 = t ++ evs
      ∧ evs.countP Event.isRestartStatusCheck = 0
      ∧ evs.countP Event.isWorkloadCall = 0
      ∧ evs.countP Event.isConfigFetch ≤ 1
      ∧ evs.countP Event.isConfigMapWrite ≤ 1
      ∧ (k.IsKind → (UpdateConfigMap env c ctx k t).1 = .ok () →
          evs.countP Event.isConfigFetch = 1 ∧ evs.countP Event.isConfigMapWrite = 1) := by
  have hfetch : Event.isConfigFetch (Event.httpGet (yamlRequest c k)) = true := by
    simp [Event.isConfigFetch, yamlRequest]
  have hnot : Event.isRestartStatusCheck (Event.httpGet (yamlRequest c k)) = false := by
    simp [Event.isRestartStatusCheck, yamlRequest, apiPathForYAML, apiPathForRestart]
  have hnow : Event.isConfigMapWrite (Event.httpGet (yamlRequest c k)) = false := rfl
  have hgr : ∀ ns name, Event.isRestartStatusCheck (Event.configMapGet ctx ns name) = false :=
    fun _ _ => rfl
  have hgf : ∀ ns name, Event.isConfigFetch (Event.configMapGet ctx ns name) = false :=
    fun _ _ => rfl
  have hgw : ∀ ns name, Event.isConfigMapWrite (Event.configMapGet ctx ns name) = false :=
    fun _ _ => rfl
  have hur : ∀ ns obj, Event.isRestartStatusCheck (Event.configMapUpdate ctx ns obj) = false :=
    fun _ _ => rfl
  have huf : ∀ ns obj, Event.isConfigFetch (Event.configMapUpdate ctx ns obj) = false :=
    fun _ _ => rfl
  have huw : ∀ ns obj, Event.isConfigMapWrite (Event.configMapUpdate ctx ns obj) = true :=
    fun _ _ => rfl
  rcases UpdateConfigMap_shape env c ctx k t with ⟨hno, htr⟩ | ⟨hnk, hu⟩ | ⟨_, _, _, _, ex, l,
      _, _, _, _, _, _, _, _, _, _, htr, _⟩
  · have hnotok : (UpdateConfigMap env c ctx k t).1 ≠ .ok () := by
      intro h
      rw [h] at hno
      exact Bool.noConfusion hno
    rcases htr with h | h | h
    · exact ⟨[], by simpa using h, rfl, rfl, by simp, by simp, fun _ hok => absurd hok hnotok⟩
    · refine ⟨[Event.httpGet (yamlRequest c k)], h, ?_, rfl, ?_, ?_,
        fun _ hok => absurd hok hnotok⟩
      · simp only [List.countP_cons, List.countP_nil, hnot]; rfl
      · simp only [List.countP_cons, List.countP_nil, hfetch]; decide
      · simp only [List.countP_cons, List.countP_nil, hnow]; decide
    · refine ⟨[Event.httpGet (yamlRequest c k),
          Event.configMapGet ctx c.AgentNamespace (configMapNameOf c k)], h, ?_, rfl, ?_, ?_,
        fun _ hok => absurd hok hnotok⟩
      · simp only [List.countP_cons, List.countP_nil, hnot, hgr]; rfl
      · simp only [List.countP_cons, List.countP_nil, hfetch, hgf]; decide
      · simp only [List.countP_cons, List.countP_nil, hnow, hgw]; decide
  · refine ⟨[Event.httpGet (yamlRequest c k)], by rw [hu], ?_, rfl, ?_, ?_,
      fun hk _ => absurd hk hnk⟩
    · simp only [List.countP_cons, List.countP_nil, hnot]; rfl
    · simp only [List.countP_cons, List.countP_nil, hfetch]; decide
    · simp only [List.countP_cons, List.countP_nil, hnow]; decide
  · refine ⟨_, htr, ?_, rfl, ?_, ?_, fun _ _ => ⟨?_, ?_⟩⟩
    · simp only [List.countP_cons, List.countP_nil, hnot, hgr, hur]; rfl
    · simp only [List.countP_cons, List.countP_nil, hfetch, hgf, huf]; decide
    · simp only [List.countP_cons, List.countP_nil, hnow, hgw, huw]; decide
    · simp only [List.countP_cons, List.countP_nil, hfetch, hgf, huf]; rfl
    · simp only [List.countP_cons, List.countP_nil, hnow, hgw, huw]; rfl

/-- C13 fails as stated: with the backend and the cluster in order, the command
`force-update-configmaps` updates both ConfigMaps successfully and then stops; no
workload is read or written and no "timestamp" label is set. -/
theorem forceUpdateAction_no_rollout_counterexample :
    (UpdateConfigMap healthyScenario.env sampleConfig background
        ComponentType.Deployment []).1 = .ok ()
    ∧ (UpdateConfigMap healthyScenario.env sampleConfig background ComponentType.DaemonSet
        (UpdateConfigMap healthyScenario.env sampleConfig background
          ComponentType.Deployment []).2).1 = .ok ()
    ∧ (forceUpdateAction healthyScenario.env sampleConfig background []).1 = .ok ()
    ∧ (forceUpdateAction healthyScenario.env sampleConfig background []).2.countP
        Event.isConfigMapWrite = 2
    ∧ (forceUpdateAction healthyScenario.env sampleConfig background []).2.countP
        Event.isWorkloadCall = 0
    ∧ writtenTimestamps
        (forceUpdateAction healthyScenario.env sampleConfig background []).2 = [] := by
  decide

/-- C13 (amended): the command `force-update-configmaps` runs, without a restart-status
check, `UpdateConfigMap` for the Deployment and then for the DaemonSet, whatever the
first call returned (unless it panicked), and never returns an error.  It issues at
most two configuration fetches and two ConfigMap writes, no rollout trigger, and no
workload read or write; when both updates succeed it has made exactly two configuration
fetches and two ConfigMap writes. -/
theorem forceUpdateAction_only_configmaps (env : Env) (kac : KubeAgentConfig)
    (ctx : Context) :
    (forceUpdateAction env kac ctx []).2.countP Event.isRestartStatusCheck = 0
    ∧ (forceUpdateAction env kac ctx []).2.countP Event.isWorkloadCall = 0
    ∧ (forceUpdateAction env kac ctx []).2.countP Event.isConfigFetch ≤ 2
    ∧ (forceUpdateAction env kac ctx []).2.countP Event.isConfigMapWrite ≤ 2
    ∧ (forceUpdateAction env kac ctx []).1.isError = false
    ∧ ((∀ reason, (UpdateConfigMap env kac ctx ComponentType.Deployment []).1
            ≠ .panicked reason) →
        (forceUpdateAction env kac ctx []).2
          = (UpdateConfigMap env kac ctx ComponentType.DaemonSet
              (UpdateConfigMap env kac ctx ComponentType.Deployment []).2).2)
    ∧ ((UpdateConfigMap env kac ctx ComponentType.Deployment []).1 = .ok () →
        (UpdateConfigMap env kac ctx ComponentType.DaemonSet
          (UpdateConfigMap env kac ctx ComponentType.Deployment []).2).1 = .ok () →
        (forceUpdateAction env kac ctx []).1 = .ok ()
        ∧ (forceUpdateAction env kac ctx []).2.countP Event.isConfigFetch = 2
        ∧ (forceUpdateAction env kac ctx []).2.countP Event.isConfigMapWrite = 2) := by
  obtain ⟨ev1, h1, hr1, hw1, hf1, hc1, hok1⟩ :=
    UpdateConfigMap_added env kac ctx ComponentType.Deployment []
  obtain ⟨ev2, h2, hr2, hw2, hf2, hc2, hok2⟩ :=
    UpdateConfigMap_added env kac ctx ComponentType.DaemonSet
      (UpdateConfigMap env kac ctx ComponentType.Deployment []).2
  simp only [List.nil_append] at h1
  rw [h1] at h2 hok2 ⊢
  rcases hu1 : UpdateConfigMap env kac ctx ComponentType.Deployment [] with ⟨r1, t1⟩
  rw [hu1] at h1 hok1
  simp only at h1 hok1
  have h1s : ev1 = t1 := h1.symm
  subst h1s
  cases r1 with
  | panicked reason =>
    have hfa : forceUpdateAction env kac ctx [] = (.panicked reason, ev1) := by
      simp [forceUpdateAction, hu1]
    rw [hfa]
    dsimp only
    refine ⟨hr1, hw1, by omega, by omega, rfl, ?_, ?_⟩
    · intro h
      exact absurd rfl (h reason)
    · intro h
      exact Result.noConfusion h
  | ok u =>
    rcases hu2 : UpdateConfigMap env kac ctx ComponentType.DaemonSet ev1 with ⟨r2, t2⟩
    rw [hu2] at h2 hok2
    simp only at h2 hok2
    subst h2
    have hcounts : ∀ p : Event → Bool, (ev1 ++ ev2).countP p = ev1.countP p + ev2.countP p :=
      fun p => List.countP_append p ev1 ev2
    cases r2 with
    | panicked reason =>
      have hfa : forceUpdateAction env kac ctx [] = (.panicked reason, ev1 ++ ev2) := by
        simp [forceUpdateAction, hu1, hu2]
      rw [hfa]
      dsimp only
      refine ⟨by rw [hcounts]; omega, by rw [hcounts]; omega, by rw [hcounts]; omega,
        by rw [hcounts]; omega, rfl, fun _ => rfl, fun _ h => Result.noConfusion h⟩
    | ok u2 =>
      have hfa : forceUpdateAction env kac ctx [] = (.ok (), ev1 ++ ev2) := by
        simp [forceUpdateAction, hu1, hu2]
      rw [hfa]
      dsimp only
      have e1 := hok1 (Or.inr rfl) rfl
      have e2 := hok2 (Or.inl rfl) rfl
      refine ⟨by rw [hcounts]; omega, by rw [hcounts]; omega, by rw [hcounts]; omega,
        by rw [hcounts]; omega, rfl, fun _ => rfl, fun _ _ => ⟨rfl, ?_, ?_⟩⟩
      · rw [hcounts]; omega
      · rw [hcounts]; omega
    | error e =>
      have hfa : forceUpdateAction env kac ctx [] = (.ok (), ev1 ++ ev2) := by
        simp [forceUpdateAction, hu1, hu2]
      rw [hfa]
      dsimp only
      refine ⟨by rw [hcounts]; omega, by rw [hcounts]; omega, by rw [hcounts]; omega,
        by rw [hcounts]; omega, rfl, fun _ => rfl, fun _ h => Result.noConfusion h⟩
  | error e =>
    rcases hu2 : UpdateConfigMap env kac ctx ComponentType.DaemonSet ev1 with ⟨r2, t2⟩
    rw [hu2] at h2 hok2
    simp only at h2 hok2
    subst h2
    have hcounts : ∀ p : Event → Bool, (ev1 ++ ev2).countP p = ev1.countP p + ev2.countP p :=
      fun p => List.countP_append p ev1 ev2
    cases r2 with
    | panicked reason =>
      have hfa : forceUpdateAction env kac ctx [] = (.panicked reason, ev1 ++ ev2) := by
        simp [forceUpdateAction, hu1, hu2]
      rw [hfa]
      dsimp only
      refine ⟨by rw [hcounts]; omega, by rw [hcounts]; omega, by rw [hcounts]; omega,
        by rw [hcounts]; omega, rfl, fun _ => rfl, fun h => Result.noConfusion h⟩
    | ok u2 =>
      have hfa : forceUpdateAction env kac ctx [] = (.ok (), ev1 ++ ev2) := by
        simp [forceUpdateAction, hu1, hu2]
      rw [hfa]
      dsimp only
      refine ⟨by rw [hcounts]; omega, by rw [hcounts]; omega, by rw [hcounts]; omega,
        by rw [hcounts]; omega, rfl, fun _ => rfl, fun h => Result.noConfusion h⟩
    | error e2 =>
      have hfa : forceUpdateAction env kac ctx [] = (.ok (), ev1 ++ ev2) := by
        simp [forceUpdateAction, hu1, hu2]
      rw [hfa]
      dsimp only
      refine ⟨by rw [hcounts]; omega, by rw [hcounts]; omega, by rw [hcounts]; omega,
        by rw [hcounts]; omega, rfl, fun _ => rfl, fun h => Result.noConfusion h⟩

theorem forceUpdateAction_only_configmaps_witness :
    (forceUpdateAction healthyScenario.env sampleConfig background []).1 = .ok ()
    ∧ (forceUpdateAction healthyScenario.env sampleConfig background []).2.countP
        Event.isConfigFetch = 2
    ∧ (forceUpdateAction healthyScenario.env sampleConfig background []).2.countP
        Event.isConfigMapWrite = 2 :=
  (forceUpdateAction_only_configmaps healthyScenario.env sampleConfig background).2.2.2.2.2.2
    (by decide) (by decide)


/-! ## Theorems: cancellation -/

/-- Once the URL parses, `UpdateConfigMap` issues the configuration fetch; it then
either stops there or goes on to the read-modify-write of a ConfigMap. -/
theorem UpdateConfigMap_after_parse (env : Env) (c : KubeAgentConfig) (ctx : Context)
    (k : ComponentType) (t : Trace) (hp : env.urlParse c.APIURLForConfigCheck = none) :
    (UpdateConfigMap env c ctx k t).2 = t ++ [Event.httpGet (yamlRequest c k)]
    ∨ ∃ name yamlData, UpdateConfigMap env c ctx k t
        = writeConfigMap env ctx c.AgentNamespace name yamlData
            (t ++ [Event.httpGet (yamlRequest c k)]) := by
  simp only [UpdateConfigMap, hp]
  repeat (first | exact Or.inl rfl | exact Or.inr ⟨_, _, rfl⟩ | split)

/-- Once the URL parses, `callRestartStatusAPI` issues the restart-status check; it then
either stops there or goes on with the flags of the decoded response. -/
theorem callRestartStatusAPI_after_parse (env : Env) (c : KubeAgentConfig) (ctx : Context)
    (t : Trace) (hp : env.urlParse c.APIURLForConfigCheck = none) :
    (callRestartStatusAPI env c ctx t).2 = t ++ [Event.httpGet (restartRequest c)]
    ∨ ∃ api, callRestartStatusAPI env c ctx t
        = restartFlagged env c ctx api (t ++ [Event.httpGet (restartRequest c)]) := by
  simp only [callRestartStatusAPI, hp]
  repeat (first | exact Or.inl rfl | exact Or.inr ⟨_, rfl⟩ | split)

/-- The trace of `ListenForConfigChanges` is the trace of its one check. -/
theorem ListenForConfigChanges_trace (env : Env) (c : KubeAgentConfig) (ctx : Context)
    (t : Trace) :
    (ListenForConfigChanges env c ctx t).2 = (callRestartStatusAPI env c ctx t).2 := by
  unfold ListenForConfigChanges
  rcases hr : callRestartStatusAPI env c ctx t with ⟨r, t1⟩
  cases r <;> rfl

/-- A run of `restartKubeAgent` only adds to the trace. -/
theorem restartKubeAgent_extends (env : Env) (c : KubeAgentConfig) (ctx : Context)
    (k : ComponentType) (hk : k.IsKind) (t : Trace) :
    ∃ evs, (restartKubeAgent env c ctx k t).2 = t ++ evs := by
  obtain ⟨ev1, h1, _⟩ :=
    UpdateConfigMap_added env c ctx k (t ++ [Event.restartKubeAgentCalled k])
  rw [restartKubeAgent_eq]
  split
  · rcases rolloutRestart_cases env c ctx k hk
        (UpdateConfigMap env c ctx k (t ++ [Event.restartKubeAgentCalled k])).2
      with ⟨r, e, h2, _⟩ | ⟨r, e, w, h2, _⟩
    · exact ⟨[Event.restartKubeAgentCalled k] ++ ev1 ++ [e], by rw [h2, h1]; simp⟩
    · exact ⟨[Event.restartKubeAgentCalled k] ++ ev1 ++ [e, w], by rw [h2, h1]; simp⟩
  · exact ⟨[Event.restartKubeAgentCalled k] ++ ev1, by rw [h1]; simp⟩

/-- The flag-driven part of `callRestartStatusAPI` only adds to the trace. -/
theorem restartFlagged_extends (env : Env) (c : KubeAgentConfig) (ctx : Context)
    (api : apiResponseForRestart) (t : Trace) :
    ∃ evs, (restartFlagged env c ctx api t).2 = t ++ evs := by
  rw [restartFlagged_trace]
  obtain ⟨e1, h1⟩ := restartKubeAgent_extends env c ctx ComponentType.DaemonSet (Or.inl rfl) t
  obtain ⟨e2, h2⟩ := restartKubeAgent_extends env c ctx ComponentType.Deployment (Or.inr rfl)
    (restartKubeAgent env c ctx ComponentType.DaemonSet t).2
  obtain ⟨e3, h3⟩ := restartKubeAgent_extends env c ctx ComponentType.Deployment (Or.inr rfl) t
  split_ifs
  · exact ⟨e1 ++ e2, by rw [h2, h1]; simp⟩
  · exact ⟨e1, h1⟩
  · exact ⟨e3, h3⟩
  · exact ⟨[], by simp⟩

/-- When the cluster client refuses to read ConfigMaps, `restartKubeAgent` does not
succeed, writes no ConfigMap and makes no workload call. -/
theorem restartKubeAgent_refused (env : Env) (c : KubeAgentConfig) (ctx : Context)
    (k : ComponentType) (hk : k.IsKind) (t : Trace)
    (hrefuse : ∀ h ns name, ∃ e, env.getConfigMap h ctx ns name = .error e) :
    (restartKubeAgent env c ctx k t).1.isOk = false
    ∧ ∃ evs, (restartKubeAgent env c ctx k t).2 = t ++ evs
        ∧ evs.countP Event.isConfigMapWrite = 0 ∧ evs.countP Event.isWorkloadCall = 0 := by
  rw [restartKubeAgent_eq]
  rcases UpdateConfigMap_shape env c ctx k (t ++ [Event.restartKubeAgentCalled k])
    with ⟨hno, htr⟩ | ⟨hnk, _⟩ | ⟨_, _, _, _, ex, _, _, _, _, _, _, _, _, _, hget, _⟩
  · rw [hno]
    simp only [Bool.false_eq_true, if_false]
    refine ⟨hno, ?_⟩
    rcases htr with h | h | h
    · exact ⟨[Event.restartKubeAgentCalled k], h, rfl, rfl⟩
    · exact ⟨[Event.restartKubeAgentCalled k, Event.httpGet (yamlRequest c k)],
        by rw [h]; simp, rfl, rfl⟩
    · exact ⟨[Event.restartKubeAgentCalled k, Event.httpGet (yamlRequest c k),
          Event.configMapGet ctx c.AgentNamespace (configMapNameOf c k)],
        by rw [h]; simp, rfl, rfl⟩
  · exact absurd hk hnk
  · obtain ⟨e, he⟩ := hrefuse
      (t ++ [Event.restartKubeAgentCalled k] ++ [Event.httpGet (yamlRequest c k)])
      c.AgentNamespace (configMapNameOf c k)
    rw [he] at hget
    exact Except.noConfusion hget

/-- C15 fails as stated: with a context that is already cancelled and a cluster client
that refuses every call made with it, `ListenForConfigChanges` still issues the
restart-status check and the configuration fetch, and `UpdateConfigMap` still issues the
configuration fetch; each then attempts the ConfigMap read.  With a cluster client that
does not look at the context, all four writes of the cycle are made. -/
theorem cancelled_context_still_requests_counterexample :
    cancelledContext.cancelled = true
    ∧ (ListenForConfigChanges daemonsetOnlyScenario.envHonouringContext sampleConfig
        cancelledContext []).2
      = [Event.httpGet (restartRequest sampleConfig),
         Event.restartKubeAgentCalled ComponentType.DaemonSet,
         Event.httpGet (yamlRequest sampleConfig ComponentType.DaemonSet),
         Event.configMapGet cancelledContext "mw-agent-ns" "mw-daemonset-otel-config"]
    ∧ (UpdateConfigMap daemonsetOnlyScenario.envHonouringContext sampleConfig
        cancelledContext ComponentType.DaemonSet []).2
      = [Event.httpGet (yamlRequest sampleConfig ComponentType.DaemonSet),
         Event.configMapGet cancelledContext "mw-agent-ns" "mw-daemonset-otel-config"]
    ∧ (ListenForConfigChanges daemonsetOnlyScenario.envHonouringContext sampleConfig
        cancelledContext []).2.countP Event.isHttpGet = 2
    ∧ (ListenForConfigChanges healthyScenario.env sampleConfig
        cancelledContext []).2.countP Event.isWrite = 4 := by
  decide

/-- C15 (amended): the context is not checked by the code itself, it is only handed to
the cluster client.  When the context is already cancelled at entry and the URL parses,
`ListenForConfigChanges` still issues the restart-status check and `UpdateConfigMap`
still issues the configuration fetch, as their first call.  When the cluster client
refuses to read ConfigMaps with a cancelled context, neither of them writes a ConfigMap
or reads or writes a workload. -/
theorem cancelled_context_requests (env : Env) (c : KubeAgentConfig) (ctx : Context)
    (k : ComponentType) (hk : k.IsKind) (hc : ctx.cancelled = true)
    (hp : env.urlParse c.APIURLForConfigCheck = none) :
    (ListenForConfigChanges env c ctx []).2.head? = some (Event.httpGet (restartRequest c))
    ∧ (UpdateConfigMap env c ctx k []).2.head? = some (Event.httpGet (yamlRequest c k))
    ∧ ((∀ h (cx : Context) ns name, cx.cancelled = true →
          ∃ e, env.getConfigMap h cx ns name = .error e) →
        (UpdateConfigMap env c ctx k []).2.countP Event.isConfigMapWrite = 0
        ∧ (UpdateConfigMap env c ctx k []).2.countP Event.isWorkloadCall = 0
        ∧ (ListenForConfigChanges env c ctx []).2.countP Event.isConfigMapWrite = 0
        ∧ (ListenForConfigChanges env c ctx []).2.countP Event.isWorkloadCall = 0) := by
  refine ⟨?_, ?_, ?_⟩
  · rw [ListenForConfigChanges_trace]
    rcases callRestartStatusAPI_after_parse env c ctx [] hp with h | ⟨api, h⟩
    · rw [h]; rfl
    · obtain ⟨evs, he⟩ := restartFlagged_extends env c ctx api
        ([] ++ [Event.httpGet (restartRequest c)])
      rw [h, he]; rfl
  · rcases UpdateConfigMap_after_parse env c ctx k [] hp with h | ⟨name, yamlData, h⟩
    · rw [h]; rfl
    · rcases writeConfigMap_cases env ctx c.AgentNamespace name yamlData
          ([] ++ [Event.httpGet (yamlRequest c k)]) with ⟨r, h1, _⟩ | ⟨_, _, r, _, _, h1, _⟩
      · rw [h, h1]; rfl
      · rw [h, h1]; rfl
  · intro hrefuse
    have hr : ∀ h ns name, ∃ e, env.getConfigMap h ctx ns name = .error e :=
      fun h ns name => hrefuse h ctx ns name hc
    refine ⟨?_, ?_, ?_, ?_⟩
    · rcases UpdateConfigMap_shape env c ctx k [] with ⟨_, htr⟩ | ⟨hnk, _⟩ | ⟨_, _, _, _, _, _,
          _, _, _, _, _, _, _, _, hget, _⟩
      · rcases htr with h | h | h <;> rw [h] <;> rfl
      · exact absurd hk hnk
      · obtain ⟨e, he⟩ := hr ([] ++ [Event.httpGet (yamlRequest c k)]) c.AgentNamespace
          (configMapNameOf c k)
        rw [he] at hget
        exact Except.noConfusion hget
    · obtain ⟨evs, h1, _, hw, _⟩ := UpdateConfigMap_added env c ctx k []
      rw [h1]
      simpa using hw
    · rw [ListenForConfigChanges_trace]
      rcases callRestartStatusAPI_after_parse env c ctx [] hp with h | ⟨api, h⟩
      · rw [h]; rfl
      · rw [h, restartFlagged_trace]
        obtain ⟨hno1, e1, h1, hc1, _⟩ := restartKubeAgent_refused env c ctx
          ComponentType.DaemonSet (Or.inl rfl) ([] ++ [Event.httpGet (restartRequest c)]) hr
        obtain ⟨_, e3, h3, hc3, _⟩ := restartKubeAgent_refused env c ctx
          ComponentType.Deployment (Or.inr rfl) ([] ++ [Event.httpGet (restartRequest c)]) hr
        rw [hno1]
        split_ifs
        · rename_i hx; exact absurd hx.1 (by simp)
        · rw [h1, List.countP_append, hc1]; rfl
        · rw [h3, List.countP_append, hc3]; rfl
        · rfl
    · rw [ListenForConfigChanges_trace]
      rcases callRestartStatusAPI_after_parse env c ctx [] hp with h | ⟨api, h⟩
      · rw [h]; rfl
      · rw [h, restartFlagged_trace]
        obtain ⟨hno1, e1, h1, _, hc1⟩ := restartKubeAgent_refused env c ctx
          ComponentType.DaemonSet (Or.inl rfl) ([] ++ [Event.httpGet (restartRequest c)]) hr
        obtain ⟨_, e3, h3, _, hc3⟩ := restartKubeAgent_refused env c ctx
          ComponentType.Deployment (Or.inr rfl) ([] ++ [Event.httpGet (restartRequest c)]) hr
        rw [hno1]
        split_ifs
        · rename_i hx; exact absurd hx.1 (by simp)
        · rw [h1, List.countP_append, hc1]; rfl
        · rw [h3, List.countP_append, hc3]; rfl
        · rfl

theorem cancelled_context_requests_witness :
    ComponentType.DaemonSet.IsKind ∧ cancelledContext.cancelled = true
    ∧ (ListenForConfigChanges daemonsetOnlyScenario.envHonouringContext sampleConfig
        cancelledContext []).2.head? = some (Event.httpGet (restartRequest sampleConfig))
    ∧ (UpdateConfigMap daemonsetOnlyScenario.envHonouringContext sampleConfig
        cancelledContext ComponentType.DaemonSet []).2.head?
        = some (Event.httpGet (yamlRequest sampleConfig ComponentType.DaemonSet))
    ∧ (ListenForConfigChanges daemonsetOnlyScenario.envHonouringContext sampleConfig
        cancelledContext []).2.countP Event.isConfigMapWrite = 0
    ∧ (ListenForConfigChanges daemonsetOnlyScenario.envHonouringContext sampleConfig
        cancelledContext []).2.countP Event.isWorkloadCall = 0 :=
  ⟨Or.inl rfl, rfl,
   (cancelled_context_requests daemonsetOnlyScenario.envHonouringContext sampleConfig
      cancelledContext ComponentType.DaemonSet (Or.inl rfl) rfl rfl).1,
   (cancelled_context_requests daemonsetOnlyScenario.envHonouringContext sampleConfig
      cancelledContext ComponentType.DaemonSet (Or.inl rfl) rfl rfl).2.1,
   ((cancelled_context_requests daemonsetOnlyScenario.envHonouringContext sampleConfig
      cancelledContext ComponentType.DaemonSet (Or.inl rfl) rfl rfl).2.2
      (fun _ cx _ _ hcx => ⟨⟨"context canceled"⟩, by
        simp [Scenario.envHonouringContext, hcx]⟩)).2.2.1,
   ((cancelled_context_requests daemonsetOnlyScenario.envHonouringContext sampleConfig
      cancelledContext ComponentType.DaemonSet (Or.inl rfl) rfl rfl).2.2
      (fun _ cx _ _ hcx => ⟨⟨"context canceled"⟩, by
        simp [Scenario.envHonouringContext, hcx]⟩)).2.2.2⟩

end ConfigUpdater
